import Mathlib

/-!
Verification development for `scripts/historical_log_mining.py`: a deterministic
historical failure-log mining pipeline (ordered rule-table classifier, three
signal extractors, aggregation, drift detection, report emission).

The Python source is shallowly embedded below.  Strings are Lean `String`s
(lists of characters); Python `re` patterns of the rule table are translated
pattern-by-pattern into executable Boolean matchers (every pattern in the table
is an alternation of case-insensitive literals, `A.*B` gap patterns where `.`
excludes the newline, one `[^|]+` run pattern, and one `\berror:\b`
word-boundary pattern).  Python floats used for percentages are modelled as
exact rationals; `round(x, 2)` (ties to even) is modelled exactly on rationals.
File-system discovery is modelled by passing each scanned directory as a list
of file entries; `Path.glob` plus `sorted` becomes a suffix filter plus an
insertion sort on names.  Output-file writing mechanics are out of scope; the
emitted outputs are modelled as the structured values the writers serialize.
-/

set_option maxRecDepth 16384

/-- Single-quote character (ASCII 39), used inside pattern literals. -/
def squote : String := String.singleton (Char.ofNat 39)

/-- Lower-case a string into its character list (models `re.IGNORECASE`
matching and works only on ASCII, which covers the rule table). -/
def lowerL (s : String) : List Char := s.toList.map Char.toLower

/-- Does `p` hold of some suffix of the character list?  Backbone of
`re.search`-style matching. -/
def anySuffix (p : List Char → Bool) : List Char → Bool
  | [] => p []
  | c :: t => p (c :: t) || anySuffix p t

/-- Substring containment on character lists (Python `in`, `re` literal
search). -/
def containsL (pat : List Char) (hay : List Char) : Bool :=
  anySuffix (fun s => pat.isPrefixOf s) hay

/-- Case-sensitive substring containment on strings (Python `in`). -/
def containsStr (hay pat : String) : Bool :=
  containsL pat.toList hay.toList

/-- Case-insensitive substring containment (a `re.IGNORECASE` literal
searched with `re.search`). -/
def containsCI (hay pat : String) : Bool :=
  containsL (lowerL pat) (lowerL hay)

/-- After skipping any run of non-newline characters, does `b` start here?
Models the `.*B` part of a `re` pattern (`.` does not match a newline). -/
def afterNoNL (b : List Char) : List Char → Bool
  | [] => b.isEmpty
  | c :: t => b.isPrefixOf (c :: t) || (!(c == '\n') && afterNoNL b t)

/-- Does some suffix start with `a`, followed (with no intervening newline)
by `b`?  Models `re.search` of `A.*B`. -/
def seqL (a b : List Char) (hay : List Char) : Bool :=
  anySuffix (fun s => a.isPrefixOf s && afterNoNL b (s.drop a.length)) hay

/-- Case-insensitive `A.*B` search on strings. -/
def seqCI (hay a b : String) : Bool :=
  seqL (lowerL a) (lowerL b) (lowerL hay)

/-- After at least one non-`|` character, does `b` start?  Models the
`[^|]+B` part of the `DEPGRAPH` pattern. -/
def pipeRun (b : List Char) : List Char → Bool
  | [] => false
  | c :: t => !(c == '|') && (b.isPrefixOf t || pipeRun b t)

/-- Search for `DEPGRAPH\|[^|]+\|unresolved\|` (case-insensitively). -/
def depgraphCI (hay : String) : Bool :=
  anySuffix
    (fun s =>
      (lowerL "DEPGRAPH|").isPrefixOf s && pipeRun (lowerL "|unresolved|") (s.drop 9))
    (lowerL hay)

/-- ASCII word character, the `\w` class of Python `re` restricted to ASCII. -/
def isWordChar (c : Char) : Bool := c.isAlphanum || c == '_'

/-- Does the list start with a word character?  (A `\b` boundary right after a
non-word character requires this.) -/
def wordStart : List Char → Bool
  | [] => false
  | c :: _ => isWordChar c

/-- Scan for `\berror:\b` given whether the previous character was a word
character: the match position must not be preceded by a word character and the
character right after `error:` must be a word character (`:` is non-word, so
the trailing `\b` demands a word character next). -/
def errorMarkerAux (prevWord : Bool) : List Char → Bool
  | [] => false
  | c :: t =>
    (!prevWord && (lowerL "error:").isPrefixOf (c :: t) && wordStart ((c :: t).drop 6)) ||
    errorMarkerAux (isWordChar c) t

/-- `re.search(r"\berror:\b", s, re.IGNORECASE)` as a Boolean. -/
def errorMarker (s : String) : Bool := errorMarkerAux false (lowerL s)

/-- Strip leading and trailing whitespace from a character list
(Python `str.strip()`; ASCII whitespace suffices for the corpus). -/
def stripL (cs : List Char) : List Char :=
  ((cs.dropWhile Char.isWhitespace).reverse.dropWhile Char.isWhitespace).reverse

/-- Python `str.strip()` on strings. -/
def strip (s : String) : String := String.mk (stripL s.toList)

/-- Split a character list at newlines, accumulating the current line
(reversed). -/
def splitlinesAux (cur : List Char) : List Char → List (List Char)
  | [] => [cur.reverse]
  | c :: t => if c == '\n' then cur.reverse :: splitlinesAux [] t else splitlinesAux (c :: cur) t

/-- Python `str.splitlines()` restricted to `\n` separators: the empty string
gives no lines and a trailing newline does not open a final empty line. -/
def splitlines (s : String) : List String :=
  match s.toList with
  | [] => []
  | c :: t =>
    let parts := (splitlinesAux [] (c :: t)).map (fun l => String.mk l)
    if parts.getLast? == some "" then parts.dropLast else parts

/-- Split at the first occurrence of `sep`, returning the pieces before and
after it (Python `s.split(sep, 1)` when `sep` occurs). -/
def splitFirstL (sep : List Char) : List Char → Option (List Char × List Char)
  | [] => if sep.isEmpty then some ([], []) else none
  | c :: t =>
    if sep.isPrefixOf (c :: t) then some ([], (c :: t).drop sep.length)
    else
      match splitFirstL sep t with
      | some (pre, post) => some (c :: pre, post)
      | none => none

/-- String version of `splitFirstL`; `none` exactly when `sep` does not occur. -/
def splitFirstStr (sep s : String) : Option (String × String) :=
  (splitFirstL sep.toList s.toList).map (fun p => (String.mk p.1, String.mk p.2))

/-- Python `s.startswith(pre)`. -/
def startsWithStr (s pre : String) : Bool := pre.toList.isPrefixOf s.toList

/-- Python `s.endswith(suf)` (used to model `Path.glob` suffix patterns). -/
def endsWithStr (s suf : String) : Bool := suf.toList.isSuffixOf s.toList

/-- Python `s[:n]` (character slicing). -/
def takeStr (n : Nat) (s : String) : String := String.mk (s.toList.take n)

/-- Python `s[n:]` (character slicing). -/
def dropStr (n : Nat) (s : String) : String := String.mk (s.toList.drop n)

/-- Character count of a string (Python `len`). -/
def strLen (s : String) : Nat := s.toList.length

/-- Code-point comparison of character lists: Python's `<=` on strings. -/
def charListLe : List Char → List Char → Bool
  | [], _ => true
  | _ :: _, [] => false
  | a :: as, b :: bs =>
    decide (a.toNat < b.toNat) || (decide (a.toNat = b.toNat) && charListLe as bs)

/-- Python string `<=` (lexicographic on code points). -/
def strLe (a b : String) : Bool := charListLe a.toList b.toList

/-- Python string `<` (lexicographic on code points). -/
def strLt (a b : String) : Bool := strLe a b && !(a == b)

/-- Insert into a list sorted by the Boolean preorder `le`, before the first
element it is `le` to (a stable insertion). -/
def insertLe (le : α → α → Bool) (x : α) : List α → List α
  | [] => [x]
  | y :: t => if le x y then x :: y :: t else y :: insertLe le x t

/-- Stable insertion sort by the Boolean preorder `le`
(models Python `sorted` with the corresponding key). -/
def sortLe (le : α → α → Bool) (l : List α) : List α :=
  l.foldr (insertLe le) []

/-- Keys of a Python `Counter`/`dict` built by insertion: the list's distinct
elements in first-seen order, given those already seen. -/
def firstSeenAux [DecidableEq α] (seen : List α) : List α → List α
  | [] => []
  | c :: t => if c ∈ seen then firstSeenAux seen t else c :: firstSeenAux (c :: seen) t

/-- Distinct elements in first-seen order (Python dict/Counter key order). -/
def firstSeen [DecidableEq α] (l : List α) : List α := firstSeenAux [] l

/-! ## Rule table and classifier

`Rule` mirrors the frozen dataclass of the source.  `pattern` is the compiled
regex's `search` as a Boolean matcher; `pattern_src` keeps the regex source
text (the code reads it back as `rule.pattern.pattern` when rendering the
report). -/

structure Rule where
  canonical : String
  stage : String
  stage_failure : String
  pattern : String → Bool
  pattern_src : String
  structural_label : String
  normalization_layer : String
  automation_feasibility : String
  deterministic_opportunity : Bool

/-- `(conda[_-]?build.*(not installed|import failed)|No module named 'conda_build')`:
the optional `[_-]` yields three literal variants before the `.*` gap. -/
def matchMetadataAdapterRuntimeMissing (s : String) : Bool :=
  seqCI s "conda_build" "not installed" || seqCI s "conda-build" "not installed" ||
  seqCI s "condabuild" "not installed" || seqCI s "conda_build" "import failed" ||
  seqCI s "conda-build" "import failed" || seqCI s "condabuild" "import failed" ||
  containsCI s ("No module named " ++ squote ++ "conda_build" ++ squote)

/-- `failed to parse rendered metadata` -/
def matchMetadataRenderFailure (s : String) : Bool :=
  containsCI s "failed to parse rendered metadata"

/-- `blocked by failed dependencies` -/
def matchDependencyBlockedCascade (s : String) : Bool :=
  containsCI s "blocked by failed dependencies"

/-- `(DEPGRAPH\|[^|]+\|unresolved\||Failed build dependencies:|No match for argument:)` -/
def matchUnresolvedBuildRequiresToken (s : String) : Bool :=
  depgraphCI s || containsCI s "Failed build dependencies:" ||
  containsCI s "No match for argument:"

/-- `(unresolved R deps after restore|dependency '.*' is not available)` -/
def matchRDependencyRestoreFailure (s : String) : Bool :=
  containsCI s "unresolved R deps after restore" ||
  seqCI s ("dependency " ++ squote) (squote ++ " is not available")

/-- `(No module named |ImportError:|DistributionNotFound)` -/
def matchPythonImportOrABIError (s : String) : Bool :=
  containsCI s "No module named " || containsCI s "ImportError:" ||
  containsCI s "DistributionNotFound"

/-- `fatal error: .*No such file or directory` -/
def matchMissingHeaderOrIncludePath (s : String) : Bool :=
  seqCI s "fatal error: " "No such file or directory"

/-- `(undefined reference to|cannot find -l|no usable version found)` -/
def matchMissingLinkTimeDependency (s : String) : Bool :=
  containsCI s "undefined reference to" || containsCI s "cannot find -l" ||
  containsCI s "no usable version found"

/-- `CMake Error` -/
def matchCMakeConfigurationFailure (s : String) : Bool :=
  containsCI s "CMake Error"

/-- `configure: error:` -/
def matchAutotoolsConfigureFailure (s : String) : Bool :=
  containsCI s "configure: error:"

/-- `(can't find file to patch|No file to patch|Hunk .*FAILED)` -/
def matchPatchApplicationFailure (s : String) : Bool :=
  containsCI s ("can" ++ squote ++ "t find file to patch") ||
  containsCI s "No file to patch" || seqCI s "Hunk " "FAILED"

/-- `(source download failed after retries|Downloaded: .* failed)` -/
def matchSourceFetchFailure (s : String) : Bool :=
  containsCI s "source download failed after retries" ||
  seqCI s "Downloaded: " " failed"

/-- `(empty string invalid as file name|No rule to make target|No targets specified and no makefile found|C compiler cannot create executables)` -/
def matchBuildScriptContractFailure (s : String) : Bool :=
  containsCI s "empty string invalid as file name" ||
  containsCI s "No rule to make target" ||
  containsCI s "No targets specified and no makefile found" ||
  containsCI s "C compiler cannot create executables"

/-- `(exit status: 137|signal: 9|Killed)` -/
def matchToolchainResourceExhaustion (s : String) : Bool :=
  containsCI s "exit status: 137" || containsCI s "signal: 9" || containsCI s "Killed"

/-- `Bad exit status from .* \(%install\)` -/
def matchRpmInstallScriptFailure (s : String) : Bool :=
  seqCI s "Bad exit status from " "(%install)"

/-- The ordered rule table `RULES`; declaration order is the priority chain. -/
def RULES : List Rule := [
  { canonical := "MetadataAdapterRuntimeMissing"
    stage := "Ingestion"
    stage_failure := "AdapterConstraintFailure"
    pattern := matchMetadataAdapterRuntimeMissing
    pattern_src := "(conda[_-]?build.*(not installed|import failed)|No module named " ++
      squote ++ "conda_build" ++ squote ++ ")"
    structural_label := "Adapter Infrastructure Issue"
    normalization_layer := "ModulePolicy"
    automation_feasibility := "High"
    deterministic_opportunity := true },
  { canonical := "MetadataRenderFailure"
    stage := "Ingestion"
    stage_failure := "RecipeParseFailure"
    pattern := matchMetadataRenderFailure
    pattern_src := "failed to parse rendered metadata"
    structural_label := "Adapter Infrastructure Issue"
    normalization_layer := "ModulePolicy"
    automation_feasibility := "High"
    deterministic_opportunity := true },
  { canonical := "DependencyBlockedCascade"
    stage := "DependencyNormalization"
    stage_failure := "DependencyResolutionFailure"
    pattern := matchDependencyBlockedCascade
    pattern_src := "blocked by failed dependencies"
    structural_label := "Dependency Translation Defect"
    normalization_layer := "DependencyClassifier"
    automation_feasibility := "High"
    deterministic_opportunity := true },
  { canonical := "UnresolvedBuildRequiresToken"
    stage := "DependencyNormalization"
    stage_failure := "DependencyResolutionFailure"
    pattern := matchUnresolvedBuildRequiresToken
    pattern_src := "(DEPGRAPH\\|[^|]+\\|unresolved\\||Failed build dependencies:|No match for argument:)"
    structural_label := "Dependency Translation Defect"
    normalization_layer := "DependencyClassifier"
    automation_feasibility := "High"
    deterministic_opportunity := true },
  { canonical := "RDependencyRestoreFailure"
    stage := "Build"
    stage_failure := "BuildFailure"
    pattern := matchRDependencyRestoreFailure
    pattern_src := "(unresolved R deps after restore|dependency " ++ squote ++ ".*" ++
      squote ++ " is not available)"
    structural_label := "Structural Ecosystem Mismatch"
    normalization_layer := "DependencyClassifier"
    automation_feasibility := "Medium"
    deterministic_opportunity := true },
  { canonical := "PythonImportOrABIError"
    stage := "Build"
    stage_failure := "BuildFailure"
    pattern := matchPythonImportOrABIError
    pattern_src := "(No module named |ImportError:|DistributionNotFound)"
    structural_label := "Structural Ecosystem Mismatch"
    normalization_layer := "DependencyClassifier"
    automation_feasibility := "Medium"
    deterministic_opportunity := true },
  { canonical := "MissingHeaderOrIncludePath"
    stage := "Build"
    stage_failure := "BuildFailure"
    pattern := matchMissingHeaderOrIncludePath
    pattern_src := "fatal error: .*No such file or directory"
    structural_label := "Dependency Translation Defect"
    normalization_layer := "DependencyClassifier"
    automation_feasibility := "High"
    deterministic_opportunity := true },
  { canonical := "MissingLinkTimeDependency"
    stage := "Build"
    stage_failure := "BuildFailure"
    pattern := matchMissingLinkTimeDependency
    pattern_src := "(undefined reference to|cannot find -l|no usable version found)"
    structural_label := "Dependency Translation Defect"
    normalization_layer := "DependencyClassifier"
    automation_feasibility := "High"
    deterministic_opportunity := true },
  { canonical := "CMakeConfigurationFailure"
    stage := "Build"
    stage_failure := "BuildFailure"
    pattern := matchCMakeConfigurationFailure
    pattern_src := "CMake Error"
    structural_label := "Toolchain Drift"
    normalization_layer := "SourceNormalizer"
    automation_feasibility := "Medium"
    deterministic_opportunity := true },
  { canonical := "AutotoolsConfigureFailure"
    stage := "Build"
    stage_failure := "BuildFailure"
    pattern := matchAutotoolsConfigureFailure
    pattern_src := "configure: error:"
    structural_label := "Toolchain Drift"
    normalization_layer := "SourceNormalizer"
    automation_feasibility := "Medium"
    deterministic_opportunity := true },
  { canonical := "PatchApplicationFailure"
    stage := "SourceNormalization"
    stage_failure := "SpecSynthesisFailure"
    pattern := matchPatchApplicationFailure
    pattern_src := "(can" ++ squote ++ "t find file to patch|No file to patch|Hunk .*FAILED)"
    structural_label := "Upstream Build Defect"
    normalization_layer := "SourceNormalizer"
    automation_feasibility := "Low"
    deterministic_opportunity := false },
  { canonical := "SourceFetchFailure"
    stage := "SourceNormalization"
    stage_failure := "InfrastructureGateFailure"
    pattern := matchSourceFetchFailure
    pattern_src := "(source download failed after retries|Downloaded: .* failed)"
    structural_label := "Adapter Infrastructure Issue"
    normalization_layer := "SourceNormalizer"
    automation_feasibility := "Medium"
    deterministic_opportunity := true },
  { canonical := "BuildScriptContractFailure"
    stage := "Build"
    stage_failure := "BuildFailure"
    pattern := matchBuildScriptContractFailure
    pattern_src := "(empty string invalid as file name|No rule to make target|No targets specified and no makefile found|C compiler cannot create executables)"
    structural_label := "Upstream Build Defect"
    normalization_layer := "SourceNormalizer"
    automation_feasibility := "Low"
    deterministic_opportunity := false },
  { canonical := "ToolchainResourceExhaustion"
    stage := "Build"
    stage_failure := "BuildFailure"
    pattern := matchToolchainResourceExhaustion
    pattern_src := "(exit status: 137|signal: 9|Killed)"
    structural_label := "Toolchain Drift"
    normalization_layer := "GovernanceException"
    automation_feasibility := "Low"
    deterministic_opportunity := true },
  { canonical := "RpmInstallScriptFailure"
    stage := "Build"
    stage_failure := "BuildFailure"
    pattern := matchRpmInstallScriptFailure
    pattern_src := "Bad exit status from .* \\(%install\\)"
    structural_label := "Upstream Build Defect"
    normalization_layer := "SpecGenerator"
    automation_feasibility := "Low"
    deterministic_opportunity := false }
]

/-- `classify_text`: first rule (in declared order) whose pattern matches,
else `none` (the `Unknown` sentinel is applied by the callers). -/
def classify_text (text : String) : Option Rule :=
  RULES.find? (fun rule => rule.pattern text)

/-- The canonical class a caller records for a classification result
(`rule.canonical if rule else "Unknown"`). -/
def canonicalOf (o : Option Rule) : String :=
  match o with
  | some r => r.canonical
  | none => "Unknown"

/-! ## Artifacts and records

An on-disk text artifact is modelled by its directory, file name, modification
timestamp (the string `file_ts` would render) and text content.  A failure
record mirrors the record dict; the `has_patch_activity` key exists only on
build-log dicts in the source and `r.get("has_patch_activity")` is `None`
(falsy) elsewhere, so it is modelled as a `Bool` that the other two extractors
set to `false`. -/

structure TextFile where
  dir : String
  name : String
  mtime : String
  text : String
deriving DecidableEq, Repr

/-- `str(path)` for a file in its directory. -/
def filePath (f : TextFile) : String := f.dir ++ "/" ++ f.name

/-- `Path.stem`: the file name with its final suffix removed; a name whose only
dot is leading, or whose dot is final, has no suffix. -/
def stemName (n : String) : String :=
  let rev := n.toList.reverse
  let ext := rev.takeWhile (fun c => !(c == '.'))
  if ext.length == rev.length then n
  else if (rev.drop (ext.length + 1)).isEmpty then n
  else if ext.isEmpty then n
  else String.mk (rev.drop (ext.length + 1)).reverse

structure FailureRecord where
  source_type : String
  artifact_path : String
  timestamp : String
  package : String
  stage : String
  stage_failure : String
  canonical_class : String
  raw_signal : String
  log_excerpt : String
  execution_mode : String
  has_patch_activity : Bool
deriving DecidableEq, Repr

/-- Pass 1 of `first_signal`: first line whose stripped text is non-empty,
is not a rust `error-format=json` command line, and classifies;
`i` is the enumeration counter. -/
def firstSignalAux1 (i : Nat) : List String → Option (String × Int)
  | [] => none
  | line :: rest =>
    let s := strip line
    if s == "" then firstSignalAux1 (i + 1) rest
    else if containsStr s "error-format=json" then firstSignalAux1 (i + 1) rest
    else
      match classify_text s with
      | some _ => some (s, (i : Int))
      | none => firstSignalAux1 (i + 1) rest

/-- Pass 2 of `first_signal`: first line whose stripped text matches
`\berror:\b`. -/
def firstSignalAux2 (i : Nat) : List String → Option (String × Int)
  | [] => none
  | line :: rest =>
    let s := strip line
    if errorMarker s then some (s, (i : Int)) else firstSignalAux2 (i + 1) rest

/-- `first_signal`: first meaningful signal and its index, else `("", -1)`. -/
def first_signal (lines : List String) : String × Int :=
  match firstSignalAux1 0 lines with
  | some r => r
  | none =>
    match firstSignalAux2 0 lines with
    | some r => r
    | none => ("", -1)

/-- `excerpt`: up to `width` non-empty stripped lines either side of the
anchor, joined with a visible separator. -/
def excerpt (lines : List String) (idx : Int) (width : Nat := 2) : String :=
  if idx < 0 then ""
  else
    let i := idx.toNat
    let lo := i - width
    let hi := min lines.length (i + width + 1)
    let part := (((lines.drop lo).take (hi - lo)).map strip).filter (fun l => !(l == ""))
    String.intercalate " | " part

/-- `package_from_log`: base name with a trailing `.log` and an optional
`.attempt<digits>` retry suffix stripped. -/
def package_from_log (name : String) : String :=
  let n := if endsWithStr name ".log" then takeStr (strLen name - 4) name else name
  let rev := n.toList.reverse
  let digits := rev.takeWhile Char.isDigit
  let rest := rev.dropWhile Char.isDigit
  if !digits.isEmpty && (".attempt".toList.reverse).isPrefixOf rest then
    String.mk (rest.drop 8).reverse
  else n

/-- The `reason=` payload of a bad-spec artifact: the first line starting with
the marker, stripped after the marker; `""` when no such line exists. -/
def badSpecReason (text : String) : String :=
  match (splitlines text).find? (fun l => startsWithStr l "reason=") with
  | some l => strip (dropStr 7 l)
  | none => ""

/-- `read_bad_spec`: extract the reason line; if it contains the `" tail="`
delimiter the stripped substring after it is the discriminating signal,
classified first, with the whole reason as classification fallback. -/
def read_bad_spec (f : TextFile) : Option FailureRecord :=
  let reason := badSpecReason f.text
  if reason == "" then none
  else
    let signal :=
      match splitFirstStr " tail=" reason with
      | some pr => strip pr.2
      | none => reason
    let rule :=
      match classify_text signal with
      | some r => some r
      | none => classify_text reason
    some
      { source_type := "bad_spec"
        artifact_path := filePath f
        timestamp := f.mtime
        package := stemName f.name
        stage := match rule with | some r => r.stage | none => "Build"
        stage_failure := match rule with | some r => r.stage_failure | none => "BuildFailure"
        canonical_class := canonicalOf rule
        raw_signal := signal
        log_excerpt := takeStr 1200 reason
        execution_mode := "Unknown"
        has_patch_activity := false }

/-- The coarse "is this a failure at all" alternation of `log_failed`,
searched per line. -/
def coarseFailure (s : String) : Bool :=
  depgraphCI s || containsCI s "Failed build dependencies:" ||
  containsCI s "No match for argument:" || containsCI s "fatal error:" ||
  containsCI s "configure: error:" || containsCI s "CMake Error" ||
  containsCI s "No module named " || containsCI s "ImportError:" ||
  containsCI s "Bad exit status from" || containsCI s "undefined reference to" ||
  containsCI s "cannot find -l" || containsCI s ("can" ++ squote ++ "t find file to patch") ||
  containsCI s "No file to patch" || containsCI s "source download failed after retries" ||
  containsCI s "blocked by failed dependencies" || containsCI s "signal: 9" ||
  containsCI s "exit status: 137"

/-- `log_failed`: does any line match the coarse failure pattern set? -/
def log_failed (lines : List String) : Bool := lines.any coarseFailure

/-- `read_build_log`: coarse failure gate, then `first_signal`, then
classification of the chosen signal. -/
def read_build_log (f : TextFile) : Option FailureRecord :=
  let lines := splitlines f.text
  if !log_failed lines then none
  else
    let si := first_signal lines
    if si.1 == "" then none
    else
      let rule := classify_text si.1
      some
        { source_type := "build_log"
          artifact_path := filePath f
          timestamp := f.mtime
          package := package_from_log f.name
          stage := match rule with | some r => r.stage | none => "Build"
          stage_failure := match rule with | some r => r.stage_failure | none => "BuildFailure"
          canonical_class := canonicalOf rule
          raw_signal := si.1
          log_excerpt := excerpt lines si.2
          execution_mode := "Unknown"
          has_patch_activity := lines.any (fun ln => containsStr ln "patching file") }

/-- One parsed row of a failure-gathering TSV (the `csv.DictReader` output;
`row.get(k) or ""` makes every field a plain string). -/
structure TsvRow where
  Package : String
  FailureSignal : String
  FirstFailureCategory : String
  ModuleContext : String
deriving DecidableEq, Repr

/-- A failure-gathering TSV artifact: its rows stand for the parsed
tab-separated lines (CSV parsing mechanics are out of scope). -/
structure TsvFile where
  dir : String
  name : String
  mtime : String
  rows : List TsvRow
deriving DecidableEq, Repr

/-- `str(path)` of a TSV artifact. -/
def tsvPath (f : TsvFile) : String := f.dir ++ "/" ++ f.name

/-- `read_failure_gathering_tsv`: skip rows with an empty stripped signal,
classify the signal with the category hint as fallback. -/
def read_failure_gathering_tsv (f : TsvFile) : List FailureRecord :=
  f.rows.filterMap fun row =>
    let signal := strip row.FailureSignal
    if signal == "" then none
    else
      let rule :=
        match classify_text signal with
        | some r => some r
        | none => classify_text row.FirstFailureCategory
      some
        { source_type := "adapter_failure_tsv"
          artifact_path := tsvPath f
          timestamp := f.mtime
          package := strip row.Package
          stage := match rule with | some r => r.stage | none => "Ingestion"
          stage_failure := match rule with | some r => r.stage_failure | none => "InfrastructureGateFailure"
          canonical_class := canonicalOf rule
          raw_signal := signal
          log_excerpt := signal
          execution_mode :=
            if containsStr row.ModuleContext "deployment=Production" then "Production"
            else "Unknown"
          has_patch_activity := false }

/-- `structural_label`: first rule with the canonical name, with the generic
default. -/
def structural_label (canonical_class : String) : String :=
  match RULES.find? (fun r => r.canonical == canonical_class) with
  | some r => r.structural_label
  | none => "Adapter Infrastructure Issue"

/-- `candidate_meta`: normalization metadata of the first rule with the
canonical name, with the generic low-feasibility default. -/
def candidate_meta (canonical_class : String) : String × String × Bool :=
  match RULES.find? (fun r => r.canonical == canonical_class) with
  | some r => (r.normalization_layer, r.automation_feasibility, r.deterministic_opportunity)
  | none => ("GovernanceException", "Low", false)

/-- `pct`: percentage guarded against a zero denominator (floats modelled as
exact rationals). -/
def pct (num den : Nat) : ℚ :=
  if den = 0 then 0 else 100 * (num : ℚ) / (den : ℚ)

/-! ## Discovery and record collection (`run`, first half)

The three scanned directories are modelled as lists of candidate entries;
`sorted(dir.glob(pattern))` becomes a suffix filter followed by a stable
insertion sort on file names (all candidates share one directory, so sorting
paths is sorting names). -/

structure Corpus where
  target_root : String
  bad_spec_dir : List TextFile
  build_logs_dir : List TextFile
  failure_tsvs_dir : List TsvFile

/-- File-name order used by `sorted` over one directory. -/
def fileLe (a b : TextFile) : Bool := strLe a.name b.name

/-- TSV-name order used by `sorted` over one directory. -/
def tsvLe (a b : TsvFile) : Bool := strLe a.name b.name

/-- `sorted(bad_spec_dir.glob("*.txt"))`. -/
def discover_bad_specs (c : Corpus) : List TextFile :=
  sortLe fileLe (c.bad_spec_dir.filter (fun f => endsWithStr f.name ".txt"))

/-- `sorted(p for p in build_logs_dir.glob("*.log") if ".attempt" not in p.name)`:
non-retry final logs only. -/
def discover_build_logs (c : Corpus) : List TextFile :=
  sortLe fileLe
    (c.build_logs_dir.filter
      (fun f => endsWithStr f.name ".log" && !containsStr f.name ".attempt"))

/-- `sorted(failure_gathering_dir.glob("*_per_package.tsv"))`. -/
def discover_failure_tsvs (c : Corpus) : List TsvFile :=
  sortLe tsvLe (c.failure_tsvs_dir.filter (fun f => endsWithStr f.name "_per_package.tsv"))

/-- One `records.append` step guarded by the extractor's optional result. -/
def appendIfSome (acc : List FailureRecord) (o : Option FailureRecord) : List FailureRecord :=
  match o with
  | some r => acc ++ [r]
  | none => acc

/-- The record list `run` collects: bad-spec records, then build-log records,
then failure-table records, via the three sequential append loops. -/
def runRecords (c : Corpus) : List FailureRecord :=
  let r1 := (discover_bad_specs c).foldl (fun acc p => appendIfSome acc (read_bad_spec p)) []
  let r2 := (discover_build_logs c).foldl (fun acc p => appendIfSome acc (read_build_log p)) r1
  (discover_failure_tsvs c).foldl (fun acc t => acc ++ read_failure_gathering_tsv t) r2

/-- The `patch_activity_logs` counter incremented per included build-log
record whose flag is set. -/
def patchActivityLogs (c : Corpus) : Nat :=
  (discover_build_logs c).foldl
    (fun n p =>
      match read_build_log p with
      | some r => if r.has_patch_activity then n + 1 else n
      | none => n)
    0

/-! ## Aggregation, coverage and drift (`run`, second half) -/

/-- Occurrences of one canonical class among the records
(a `Counter` entry). -/
def class_count (records : List FailureRecord) (cls : String) : Nat :=
  records.countP (fun r => r.canonical_class == cls)

/-- `Counter(r["canonical_class"] for r in records).items()` in Counter
(first-seen) order. -/
def category_counts (records : List FailureRecord) : List (String × Nat) :=
  (firstSeen (records.map (fun r => r.canonical_class))).map
    (fun cls => (cls, class_count records cls))

/-- `Counter(r["stage"] for r in records).items()` in first-seen order. -/
def stage_counts (records : List FailureRecord) : List (String × Nat) :=
  (firstSeen (records.map (fun r => r.stage))).map
    (fun s => (s, records.countP (fun r => r.stage == s)))

/-- `Counter(r["source_type"] for r in records).items()` in first-seen order. -/
def source_counts (records : List FailureRecord) : List (String × Nat) :=
  (firstSeen (records.map (fun r => r.source_type))).map
    (fun s => (s, records.countP (fun r => r.source_type == s)))

/-- Sort key `lambda kv: (-kv[1], kv[0])` on `(class, count)` items. -/
def pairCountLe (a b : String × Nat) : Bool :=
  decide (b.2 < a.2) || (a.2 == b.2 && strLe a.1 b.1)

/-- `unknown = category_counts.get("Unknown", 0)`. -/
def unknown_count (records : List FailureRecord) : Nat :=
  class_count records "Unknown"

/-- `classified = total - unknown`. -/
def classified_count (records : List FailureRecord) : Nat :=
  records.length - unknown_count records

/-- `coverage = pct(classified, total)`. -/
def coverage (records : List FailureRecord) : ℚ :=
  pct (classified_count records) records.length

/-- `unknown_pct = pct(unknown, total)`. -/
def unknown_pct (records : List FailureRecord) : ℚ :=
  pct (unknown_count records) records.length

/-- `taxonomy_insufficient = unknown_pct > 20.0`. -/
def taxonomy_insufficient (records : List FailureRecord) : Bool :=
  decide (unknown_pct records > 20)

/-- `long_tail = [(k, v) for k, v in category_counts.items() if pct(v, total) < 3.0]`. -/
def long_tail (records : List FailureRecord) : List (String × Nat) :=
  (category_counts records).filter (fun kv => decide (pct kv.2 records.length < 3))

/-- `long_tail_share = pct(sum(v for _, v in long_tail), total)`. -/
def long_tail_share (records : List FailureRecord) : ℚ :=
  pct (((long_tail records).map (fun kv => kv.2)).sum) records.length

/-- `rule_proliferation_indicator = long_tail_share > 40.0`. -/
def rule_proliferation_indicator (records : List FailureRecord) : Bool :=
  decide (long_tail_share records > 40)

/-- `top10 = sorted(category_counts.items(), key=lambda kv: (-kv[1], kv[0]))[:10]`. -/
def top10 (records : List FailureRecord) : List (String × Nat) :=
  (sortLe pairCountLe (category_counts records)).take 10

/-- One patch-drift finding. -/
structure DriftItem where
  package : String
  canonical_class : String
  artifact_path : String
deriving DecidableEq, Repr

/-- `patch_drift`: append, per record in order, the build-log records whose
patch-activity flag is set and whose canonical class is not
`PatchApplicationFailure`. -/
def patch_drift (records : List FailureRecord) : List DriftItem :=
  records.foldl
    (fun acc r =>
      if r.source_type == "build_log" && r.has_patch_activity &&
          !(r.canonical_class == "PatchApplicationFailure") then
        acc ++ [{ package := r.package, canonical_class := r.canonical_class,
                  artifact_path := r.artifact_path }]
      else acc)
    []

/-- One repeated `(package, class)` signature. -/
structure RepeatedSig where
  package : String
  canonical_class : String
  occurrences : Nat
deriving DecidableEq, Repr

/-- Sort key `lambda x: (-occurrences, package, canonical_class)`. -/
def sigLe (a b : RepeatedSig) : Bool :=
  decide (b.occurrences < a.occurrences) ||
  (a.occurrences == b.occurrences &&
    (strLt a.package b.package ||
      (a.package == b.package && strLe a.canonical_class b.canonical_class)))

/-- `repeated_signatures`: `(package, class)` pairs with count at least 2,
sorted by descending count then package then class. -/
def repeated_signatures (records : List FailureRecord) : List RepeatedSig :=
  let pairs := records.map (fun r => (r.package, r.canonical_class))
  let items := (firstSeen pairs).map (fun p => (p, pairs.countP (fun q => q == p)))
  sortLe sigLe
    (((items.filter (fun it => decide (2 ≤ it.2))).map
      (fun it => { package := it.1.1, canonical_class := it.1.2, occurrences := it.2 })))

/-- One cluster row. -/
structure Cluster where
  canonical_class : String
  occurrences : Nat
  representative_examples : List String
  structural_label : String
deriving DecidableEq, Repr

/-- Representative examples: up to 3 distinct raw signals in first-seen order,
each truncated to 240 characters. -/
def clusterExamplesAux (seen acc : List String) : List FailureRecord → List String
  | [] => acc.reverse
  | r :: t =>
    let sig := r.raw_signal
    let acc2 := if sig ∈ seen then acc else takeStr 240 sig :: acc
    let seen2 := if sig ∈ seen then seen else sig :: seen
    if 3 ≤ acc2.length then acc2.reverse else clusterExamplesAux seen2 acc2 t

/-- Cluster-sort key `lambda kv: (-len(kv[1]), kv[0])` over
`(class, rows)` groups. -/
def groupLe (a b : String × List FailureRecord) : Bool :=
  decide (b.2.length < a.2.length) || (a.2.length == b.2.length && strLe a.1 b.1)

/-- `clusters`: per canonical class (grouped in first-seen order, sorted by
descending count then class name) the count, examples and structural label. -/
def clusters (records : List FailureRecord) : List Cluster :=
  let groups := (firstSeen (records.map (fun r => r.canonical_class))).map
    (fun cls => (cls, records.filter (fun r => r.canonical_class == cls)))
  (sortLe groupLe groups).map
    (fun g =>
      { canonical_class := g.1
        occurrences := g.2.length
        representative_examples := clusterExamplesAux [] [] g.2
        structural_label := structural_label g.1 })

/-- One normalization-candidate row. -/
structure Candidate where
  failure_category : String
  proposed_layer : String
  automation_feasibility : String
  deterministic_normalization_opportunity : String
  estimated_impact_percent : ℚ
deriving DecidableEq, Repr

/-- `round` to an integer with Python's ties-to-even behavior, on exact
rationals. -/
def roundHalfEven (q : ℚ) : ℤ :=
  let f := Int.floor q
  if q - f < 1 / 2 then f
  else if 1 / 2 < q - f then f + 1
  else if f % 2 = 0 then f else f + 1

/-- Python `round(x, 2)` on exact rationals. -/
def round2 (q : ℚ) : ℚ := (roundHalfEven (q * 100) : ℚ) / 100

/-- `normalization_candidates`: per class in descending-count order, the
declared normalization metadata and rounded impact percentage. -/
def normalization_candidates (records : List FailureRecord) : List Candidate :=
  (sortLe pairCountLe (category_counts records)).map
    (fun kv =>
      let meta := candidate_meta kv.1
      { failure_category := kv.1
        proposed_layer := meta.1
        automation_feasibility := meta.2.1
        deterministic_normalization_opportunity := if meta.2.2 then "yes" else "no"
        estimated_impact_percent := round2 (pct kv.2 records.length) })

/-! ## Output assembly (`run`, emission)

The five outputs are modelled as the structured values the TSV/JSON/markdown
writers serialize (file writing mechanics are out of scope).  Only the
summary payload embeds the generation timestamp. -/

/-- Python `f"{x:.2f}"` on a non-negative exact rational. -/
def fmt2 (q : ℚ) : String :=
  let m := roundHalfEven (q * 100)
  let r := (m % 100).toNat
  toString (m / 100) ++ "." ++ (if r < 10 then "0" ++ toString r else toString r)

/-- Python `str(b).lower()` for a Boolean. -/
def boolStr (b : Bool) : String := if b then "true" else "false"

/-- The rendered rule-table rows of report section 2 (pattern source escaped
and abridged beyond 100 characters). -/
def ruleTableLines : List String :=
  RULES.enum.map
    (fun p =>
      let patt0 := p.2.pattern_src.replace "|" "\\|"
      let patt := if 100 < strLen patt0 then takeStr 97 patt0 ++ "..." else patt0
      "| " ++ toString (p.1 + 1) ++ " | `" ++ patt ++ "` | " ++ p.2.canonical ++ " |")

structure InputDiscovery where
  bad_spec_files : Nat
  build_logs_examined : Nat
  failure_gathering_tsv_files : Nat
  patch_activity_logs : Nat
  source_counts : List (String × Nat)
deriving DecidableEq, Repr

structure ClassifierValidation where
  total_historical_failures : Nat
  classified_count : Nat
  classified_percent : ℚ
  unknown_count : Nat
  unknown_percent : ℚ
  taxonomy_insufficiency_flag : Bool
deriving DecidableEq, Repr

structure ArtifactPaths where
  records_tsv : String
  clusters_tsv : String
  candidates_tsv : String
  report_md : String
deriving DecidableEq, Repr

/-- The structured summary payload written to `summary_json`. -/
structure Summary where
  target_root : String
  generated_at_utc : String
  input_discovery : InputDiscovery
  classifier_validation : ClassifierValidation
  top10_classes : List (String × Nat)
  stage_distribution : List (String × Nat)
  long_tail_share_percent : ℚ
  rule_proliferation_indicator : Bool
  repeated_signatures_top : List RepeatedSig
  patch_drift_top : List DriftItem
  artifacts : ArtifactPaths
deriving DecidableEq, Repr

/-- The narrative markdown report, line by line, in the fixed section order of
the source. -/
def report_md (c : Corpus) (out_dir : String) : List String :=
  let records := runRecords c
  let total := records.length
  let records_tsv := out_dir ++ "/historical_failure_records.tsv"
  let clusters_tsv := out_dir ++ "/historical_failure_clusters.tsv"
  let candidates_tsv := out_dir ++ "/historical_normalization_candidates.tsv"
  let summary_json := out_dir ++ "/historical_log_mining_summary.json"
  ["# Historical Log Mining Report", "",
   "## 1. HistoricalFailureSummary",
   "- Target root: `" ++ c.target_root ++ "`",
   "- Total historical failure records: **" ++ toString total ++ "**",
   "- BAD_SPEC artifacts: **" ++ toString (discover_bad_specs c).length ++ "**",
   "- Build logs examined (non-attempt): **" ++ toString (discover_build_logs c).length ++ "**",
   "- Failure-gathering TSV inputs: **" ++ toString (discover_failure_tsvs c).length ++ "**",
   "- Patch-injection artifacts observed in failing logs: **" ++ toString (patchActivityLogs c) ++ "**",
   "",
   "### HistoricalFailureRecord schema",
   "`\x7b package, stage, raw_signal, log_excerpt \x7d`",
   "",
   "## 2. Failure Signal Extraction Rules (Deterministic)", "",
   "Regex-style ordered extraction patterns:", "",
   "| Priority | Pattern (abridged) | CanonicalClass |",
   "|---:|---|---|"]
  ++ ruleTableLines
  ++ ["",
      "Noise suppression rules:",
      "- Ignore empty lines.",
      "- Ignore rust `error-format=json` command lines.",
      "- If no deterministic pattern matches, fallback to first explicit `error:` line.",
      "",
      "## 3. Canonicalization", "",
      "| CanonicalClass | Occurrences | RepresentativeExamples |",
      "|---|---:|---|"]
  ++ ((clusters records).take 10).map
      (fun cl =>
        let ex := (String.intercalate " <br> " cl.representative_examples).replace "|" "\\|"
        "| " ++ cl.canonical_class ++ " | " ++ toString cl.occurrences ++ " | " ++ ex ++ " |")
  ++ ["", "## 4. CanonicalFailureDistribution", "",
      "| FailureCategory | Count | % of Historical Failures |",
      "|---|---:|---:|"]
  ++ (sortLe pairCountLe (category_counts records)).map
      (fun kv => "| " ++ kv.1 ++ " | " ++ toString kv.2 ++ " | " ++ fmt2 (pct kv.2 total) ++ "% |")
  ++ ["", "## 5. Frequency & Stage Distribution", "",
      "| PipelineStage | Count | % |", "|---|---:|---:|"]
  ++ (sortLe pairCountLe (stage_counts records)).map
      (fun kv => "| " ++ kv.1 ++ " | " ++ toString kv.2 ++ " | " ++ fmt2 (pct kv.2 total) ++ "% |")
  ++ ["", "### Top 10 recurring canonical classes", "",
      "| Rank | FailureCategory | Count | % |", "|---:|---|---:|---:|"]
  ++ (top10 records).enum.map
      (fun p => "| " ++ toString (p.1 + 1) ++ " | " ++ p.2.1 ++ " | " ++ toString p.2.2 ++
        " | " ++ fmt2 (pct p.2.2 total) ++ "% |")
  ++ ["", "### Long-tail classes (<3% frequency)", "",
      "| FailureCategory | Count | % |", "|---|---:|---:|"]
  ++ (sortLe pairCountLe (long_tail records)).map
      (fun kv => "| " ++ kv.1 ++ " | " ++ toString kv.2 ++ " | " ++ fmt2 (pct kv.2 total) ++ "% |")
  ++ ["", "## 6. StructuralVsIncidentalBreakdown", "",
      "| FailureCategory | Structural Label | Count |", "|---|---|---:|"]
  ++ (sortLe pairCountLe (category_counts records)).map
      (fun kv => "| " ++ kv.1 ++ " | " ++ structural_label kv.1 ++ " | " ++ toString kv.2 ++ " |")
  ++ ["", "## 7. NormalizationCandidateMatrix", "",
      "| FailureCategory | Deterministic Normalization Opportunity | Proposed Layer | Automation Feasibility | Estimated Impact % |",
      "|---|---|---|---|---:|"]
  ++ (normalization_candidates records).map
      (fun cd => "| " ++ cd.failure_category ++ " | " ++ cd.deterministic_normalization_opportunity ++
        " | " ++ cd.proposed_layer ++ " | " ++ cd.automation_feasibility ++ " | " ++
        fmt2 cd.estimated_impact_percent ++ "% |")
  ++ ["", "## 8. ClassifierCoverageScore", "",
      "- Classified: **" ++ toString (classified_count records) ++ "/" ++ toString total ++
        " (" ++ fmt2 (coverage records) ++ "%)**",
      "- Unknown: **" ++ toString (unknown_count records) ++ "/" ++ toString total ++
        " (" ++ fmt2 (unknown_pct records) ++ "%)**",
      "- Taxonomy insufficiency flag (`Unknown > 20%`): **" ++
        boolStr (taxonomy_insufficient records) ++ "**",
      "", "## 9. HeuristicDriftFindings", "",
      "### Repeated manual-signature candidates (package + canonical class, occurrences >=2)", "",
      "| Package | FailureCategory | Occurrences |", "|---|---|---:|"]
  ++ ((repeated_signatures records).take 25).map
      (fun it => "| " ++ it.package ++ " | " ++ it.canonical_class ++ " | " ++
        toString it.occurrences ++ " |")
  ++ ["", "### Patch activity not ending in PatchApplicationFailure", "",
      "| Package | FailureCategory | Artifact |", "|---|---|---|"]
  ++ ((patch_drift records).take 25).map
      (fun it => "| " ++ it.package ++ " | " ++ it.canonical_class ++ " | `" ++
        it.artifact_path ++ "` |")
  ++ ["",
      "- Long-tail share: **" ++ fmt2 (long_tail_share records) ++ "%**",
      "- Rule proliferation indicator (long-tail share > 40%): **" ++
        boolStr (rule_proliferation_indicator records) ++ "**",
      "", "## 10. StrategicRecommendations for Live Sampling Readiness", "",
      "1. Keep metadata-adapter runtime preflight as a hard campaign gate to prevent ingestion-stage dataset contamination.",
      "2. Prioritize deterministic normalization for `UnresolvedBuildRequiresToken`, `MissingHeaderOrIncludePath`, and `MissingLinkTimeDependency` before expanding live sampling breadth.",
      "3. Treat `PatchApplicationFailure` and `BuildScriptContractFailure` as lower-automation classes requiring targeted SourceNormalizer policy, not package-local heuristics.",
      "4. Use this mined distribution as a seed prior for stratified adaptive sampling weights; refresh after each normalization rule cycle.",
      "",
      "## 11. Artifact Paths",
      "- Records: `" ++ records_tsv ++ "`",
      "- Clusters: `" ++ clusters_tsv ++ "`",
      "- Candidates: `" ++ candidates_tsv ++ "`",
      "- Summary JSON: `" ++ summary_json ++ "`"]

/-- The five emitted outputs of one run, as structured values. -/
structure Outputs where
  records_rows : List FailureRecord
  clusters_rows : List Cluster
  candidates_rows : List Candidate
  summary : Summary
  report_lines : List String
deriving DecidableEq, Repr

/-- `run`: collect the records, aggregate, and assemble every output;
`now` is the `datetime.now(timezone.utc).isoformat()` reading that only the
summary payload embeds. -/
def runOutputs (c : Corpus) (out_dir now : String) : Outputs :=
  let records := runRecords c
  let records_tsv := out_dir ++ "/historical_failure_records.tsv"
  let clusters_tsv := out_dir ++ "/historical_failure_clusters.tsv"
  let candidates_tsv := out_dir ++ "/historical_normalization_candidates.tsv"
  let report_md_path := out_dir ++ "/historical_log_mining_report.md"
  { records_rows := records
    clusters_rows := clusters records
    candidates_rows := normalization_candidates records
    summary :=
      { target_root := c.target_root
        generated_at_utc := now
        input_discovery :=
          { bad_spec_files := (discover_bad_specs c).length
            build_logs_examined := (discover_build_logs c).length
            failure_gathering_tsv_files := (discover_failure_tsvs c).length
            patch_activity_logs := patchActivityLogs c
            source_counts := source_counts records }
        classifier_validation :=
          { total_historical_failures := records.length
            classified_count := classified_count records
            classified_percent := round2 (coverage records)
            unknown_count := unknown_count records
            unknown_percent := round2 (unknown_pct records)
            taxonomy_insufficiency_flag := taxonomy_insufficient records }
        top10_classes := top10 records
        stage_distribution := stage_counts records
        long_tail_share_percent := round2 (long_tail_share records)
        rule_proliferation_indicator := rule_proliferation_indicator records
        repeated_signatures_top := (repeated_signatures records).take 20
        patch_drift_top := (patch_drift records).take 20
        artifacts :=
          { records_tsv := records_tsv
            clusters_tsv := clusters_tsv
            candidates_tsv := candidates_tsv
            report_md := report_md_path } }
    report_lines := report_md c out_dir }

/-! ## Specification-side predicates and concrete artifacts

`signalLine` and `errLine` name the per-line acceptance tests of the two
passes of `first_signal`; the concrete artifacts below instantiate the
claims. -/

/-- A line pass 1 of `first_signal` accepts: stripped text non-empty, not a
`error-format=json` noise line, and matched by some rule. -/
def signalLine (line : String) : Bool :=
  let s := strip line
  !(s == "") && !(containsStr s "error-format=json") && (classify_text s).isSome

/-- A line pass 2 of `first_signal` accepts: stripped text matches
`\berror:\b`. -/
def errLine (line : String) : Bool := errorMarker (strip line)

/-- A text matching the patterns of rule 5 (`PythonImportOrABIError`) and
rule 6 (`MissingHeaderOrIncludePath`) — and also rule 0
(`MetadataAdapterRuntimeMissing`), which precedes both. -/
def c1CounterText : String :=
  "No module named " ++ squote ++ "conda_build" ++ squote ++
  " fatal error: x No such file or directory"

/-- A text matching the patterns of rules 5 and 6 and of no earlier rule. -/
def c1PairText : String :=
  "ImportError: no display name fatal error: png.h: No such file or directory"

/-- A failing build log whose second line carries the rule-matched signal. -/
def c2File : TextFile :=
  { dir := "reports/build_logs", name := "zlib-demo.log", mtime := "T2",
    text := "hello\nfatal error: zlib.h: No such file or directory\n" }

/-- The bad-spec example of the spec: an unresolved-dependency reason with a
Python-import tail. -/
def c3Numpy : TextFile :=
  { dir := "BAD_SPEC", name := "numpy-consumer.txt", mtime := "T3b",
    text := "reason=unresolved dependency tail=No module named " ++ squote ++ "numpy" ++ squote }

/-- A final build log. -/
def c4foo : TextFile :=
  { dir := "reports/build_logs", name := "foo.log", mtime := "T4a",
    text := "CMake Error at CMakeLists.txt:1\n" }

/-- The retry-attempt variant of the same build log. -/
def c4fooAttempt : TextFile :=
  { dir := "reports/build_logs", name := "foo.attempt1.log", mtime := "T4b",
    text := "CMake Error at CMakeLists.txt:1\n" }

/-- A corpus holding `foo.log` and `foo.attempt1.log`. -/
def c4Corpus : Corpus :=
  { target_root := "targets/root", bad_spec_dir := [],
    build_logs_dir := [c4foo, c4fooAttempt], failure_tsvs_dir := [] }

/-- An unclassified concrete record. -/
def sampleUnknownRecord : FailureRecord :=
  { source_type := "build_log", artifact_path := "reports/build_logs/foo.log",
    timestamp := "T5", package := "foo", stage := "Build",
    stage_failure := "BuildFailure", canonical_class := "Unknown",
    raw_signal := "error:x", log_excerpt := "error:x",
    execution_mode := "Unknown", has_patch_activity := false }

/-- A classified concrete record. -/
def sampleCMakeRecord : FailureRecord :=
  { source_type := "build_log", artifact_path := "reports/build_logs/bar.log",
    timestamp := "T5", package := "bar", stage := "Build",
    stage_failure := "BuildFailure", canonical_class := "CMakeConfigurationFailure",
    raw_signal := "CMake Error at CMakeLists.txt:3",
    log_excerpt := "CMake Error at CMakeLists.txt:3",
    execution_mode := "Unknown", has_patch_activity := false }

/-- A failing build log with patch activity whose final class is a
non-patch class. -/
def c7Log : TextFile :=
  { dir := "reports/build_logs", name := "patchy.log", mtime := "T7",
    text := "patching file src/main.c\nCMake Error at CMakeLists.txt:3 (project)\n" }

/-- A corpus holding only the patch-activity log. -/
def c7Corpus : Corpus :=
  { target_root := "targets/root", bad_spec_dir := [],
    build_logs_dir := [c7Log], failure_tsvs_dir := [] }

/-- A corpus in which no artifact is discovered. -/
def emptyCorpus : Corpus :=
  { target_root := "targets/root", bad_spec_dir := [], build_logs_dir := [],
    failure_tsvs_dir := [] }

/-- A bad-spec artifact whose tail matches no rule while the text before the
delimiter does. -/
def c10File : TextFile :=
  { dir := "BAD_SPEC", name := "blocked.txt", mtime := "T10",
    text := "reason=blocked by failed dependencies tail=zzz" }

/-! ## General lemmas on the embedded combinators -/

/-- The guarded-append loop over an optional extractor is `filterMap`. -/
theorem foldl_appendIfSome {α : Type} (f : α → Option FailureRecord) :
    ∀ (l : List α) (acc : List FailureRecord),
      l.foldl (fun a x => appendIfSome a (f x)) acc = acc ++ l.filterMap f := by
  intro l
  induction l with
  | nil => intro acc; simp
  | cons x t ih =>
    intro acc
    rw [List.foldl_cons]
    cases h : f x with
    | none =>
      rw [show appendIfSome acc none = acc from rfl, ih, List.filterMap_cons, h]
    | some r =>
      rw [show appendIfSome acc (some r) = acc ++ [r] from rfl, ih, List.filterMap_cons, h]
      simp

/-- The list-extend loop over a list-valued extractor is `flatMap`. -/
theorem foldl_appendFlat {α β : Type} (f : α → List β) :
    ∀ (l : List α) (acc : List β),
      l.foldl (fun a x => a ++ f x) acc = acc ++ l.flatMap f := by
  intro l
  induction l with
  | nil => intro acc; simp
  | cons x t ih => intro acc; simp [List.foldl_cons, ih]

/-- The guarded-append loop over a Boolean filter is `filter` then `map`. -/
theorem foldl_appendIf {α β : Type} (p : α → Bool) (g : α → β) :
    ∀ (l : List α) (acc : List β),
      l.foldl (fun a x => if p x then a ++ [g x] else a) acc =
        acc ++ (l.filter p).map g := by
  intro l
  induction l with
  | nil => intro acc; simp
  | cons x t ih =>
    intro acc
    cases h : p x with
    | false => simp [List.foldl_cons, h, List.filter_cons, ih]
    | true => simp [List.foldl_cons, h, List.filter_cons, ih]

/-- `find?` returns the entry at the first index satisfying the predicate. -/
theorem find?_of_first {α : Type} (p : α → Bool) :
    ∀ (l : List α) (i : Nat) (h : i < l.length),
      p (l.get ⟨i, h⟩) = true →
      (∀ j (hj : j < i), p (l.get ⟨j, Nat.lt_trans hj h⟩) = false) →
      l.find? p = some (l.get ⟨i, h⟩) := by
  intro l
  induction l with
  | nil => intro i h; exact absurd h (Nat.not_lt_zero i)
  | cons x t ih =>
    intro i h hp hmin
    cases i with
    | zero =>
      have hp' : p x = true := hp
      simp [List.find?_cons, hp']
    | succ n =>
      have hx : p x = false := hmin 0 (Nat.succ_pos n)
      have := ih n (Nat.lt_of_succ_lt_succ h) hp
        (fun j hj => hmin (j + 1) (Nat.succ_lt_succ hj))
      simpa [List.find?_cons, hx] using this

/-- A match at index `i` forces `find?` to succeed at some index at
most `i`. -/
theorem find?_le_of_match {α : Type} (p : α → Bool) :
    ∀ (l : List α) (i : Nat) (h : i < l.length),
      p (l.get ⟨i, h⟩) = true →
      ∃ k, ∃ (hk : k < l.length), k ≤ i ∧ l.find? p = some (l.get ⟨k, hk⟩) := by
  intro l
  induction l with
  | nil => intro i h; exact absurd h (Nat.not_lt_zero i)
  | cons x t ih =>
    intro i h hp
    cases hx : p x with
    | true =>
      exact ⟨0, Nat.succ_pos t.length, Nat.zero_le i, by simp [List.find?_cons, hx]⟩
    | false =>
      cases i with
      | zero => rw [show (x :: t).get ⟨0, h⟩ = x from rfl] at hp; exact absurd hp (by simp [hx])
      | succ n =>
        obtain ⟨k, hk, hki, hfind⟩ := ih n (Nat.lt_of_succ_lt_succ h) hp
        exact ⟨k + 1, Nat.succ_lt_succ hk, Nat.succ_le_succ hki,
          by simpa [List.find?_cons, hx] using hfind⟩

/-- Membership in a stable insertion. -/
theorem mem_insertLe {α : Type} (le : α → α → Bool) (x y : α) :
    ∀ l : List α, y ∈ insertLe le x l ↔ y = x ∨ y ∈ l := by
  intro l
  induction l with
  | nil => simp [insertLe]
  | cons z t ih =>
    by_cases h : le x z = true
    · simp [insertLe, h]
    · simp only [insertLe, if_neg h, List.mem_cons, ih]
      tauto

/-- Membership in the insertion sort. -/
theorem mem_sortLe {α : Type} (le : α → α → Bool) (l : List α) (y : α) :
    y ∈ sortLe le l ↔ y ∈ l := by
  induction l with
  | nil => simp [sortLe]
  | cons x t ih =>
    show y ∈ insertLe le x (sortLe le t) ↔ _
    rw [mem_insertLe, ih]
    simp [List.mem_cons, eq_comm]

/-- The head of an insertion is the new element or the old head. -/
theorem head?_insertLe {α : Type} (le : α → α → Bool) (x : α) :
    ∀ l : List α, (insertLe le x l).head? = some x ∨ (insertLe le x l).head? = l.head? := by
  intro l
  cases l with
  | nil => exact Or.inl rfl
  | cons y t =>
    by_cases h : le x y = true
    · exact Or.inl (by simp [insertLe, h])
    · exact Or.inr (by simp [insertLe, h])

/-- Insertion into a `Chain'`-sorted list preserves sortedness, given
totality of the comparison. -/
theorem chain'_insertLe {α : Type} (le : α → α → Bool)
    (htot : ∀ a b, le a b = true ∨ le b a = true) (x : α) :
    ∀ l : List α, List.Chain' (fun a b => le a b = true) l →
      List.Chain' (fun a b => le a b = true) (insertLe le x l) := by
  intro l
  induction l with
  | nil => intro _; exact List.chain'_singleton x
  | cons y t ih =>
    intro hc
    rw [List.chain'_cons'] at hc
    by_cases hxy : le x y = true
    · show List.Chain' _ (if le x y then x :: y :: t else _)
      rw [if_pos hxy, List.chain'_cons']
      refine ⟨fun b hb => ?_, List.chain'_cons'.mpr hc⟩
      simp only [List.head?_cons, Option.mem_def, Option.some.injEq] at hb
      rw [← hb]
      exact hxy
    · show List.Chain' _ (if le x y then _ else y :: insertLe le x t)
      rw [if_neg hxy, List.chain'_cons']
      refine ⟨fun b hb => ?_, ih hc.2⟩
      rcases head?_insertLe le x t with h1 | h1
      · rw [h1] at hb
        simp only [Option.mem_def, Option.some.injEq] at hb
        rw [← hb]
        exact (htot x y).resolve_left hxy
      · rw [h1] at hb
        exact hc.1 b hb

/-- The insertion sort is `Chain'`-sorted for any total comparison. -/
theorem chain'_sortLe {α : Type} (le : α → α → Bool)
    (htot : ∀ a b, le a b = true ∨ le b a = true) (l : List α) :
    List.Chain' (fun a b => le a b = true) (sortLe le l) := by
  induction l with
  | nil => exact List.chain'_nil
  | cons x t ih => exact chain'_insertLe le htot x (sortLe le t) ih

/-- Code-point comparison of character lists is total. -/
theorem charListLe_total : ∀ a b : List Char, charListLe a b = true ∨ charListLe b a = true := by
  intro a
  induction a with
  | nil => intro b; exact Or.inl rfl
  | cons c as ih =>
    intro b
    cases b with
    | nil => exact Or.inr rfl
    | cons d bs =>
      show (decide (c.toNat < d.toNat) || (decide (c.toNat = d.toNat) && charListLe as bs)) = true ∨
        (decide (d.toNat < c.toNat) || (decide (d.toNat = c.toNat) && charListLe bs as)) = true
      simp only [Bool.or_eq_true, Bool.and_eq_true, decide_eq_true_eq]
      rcases Nat.lt_trichotomy c.toNat d.toNat with h | h | h
      · exact Or.inl (Or.inl h)
      · rcases ih bs with h2 | h2
        · exact Or.inl (Or.inr ⟨h, h2⟩)
        · exact Or.inr (Or.inr ⟨h.symm, h2⟩)
      · exact Or.inr (Or.inl h)

/-- File-name comparison is total. -/
theorem fileLe_total : ∀ a b : TextFile, fileLe a b = true ∨ fileLe b a = true :=
  fun a b => charListLe_total a.name.toList b.name.toList

/-- TSV-name comparison is total. -/
theorem tsvLe_total : ∀ a b : TsvFile, tsvLe a b = true ∨ tsvLe b a = true :=
  fun a b => charListLe_total a.name.toList b.name.toList

/-- Membership in the first-seen deduplication. -/
theorem mem_firstSeenAux {α : Type} [DecidableEq α] :
    ∀ (l seen : List α) (x : α), x ∈ firstSeenAux seen l ↔ x ∈ l ∧ x ∉ seen := by
  intro l
  induction l with
  | nil => intro seen x; simp [firstSeenAux]
  | cons c t ih =>
    intro seen x
    by_cases hc : c ∈ seen
    · rw [show firstSeenAux seen (c :: t) = firstSeenAux seen t from by simp [firstSeenAux, hc]]
      rw [ih]
      constructor
      · exact fun h => ⟨List.mem_cons_of_mem c h.1, h.2⟩
      · rintro ⟨h1, h2⟩
        rcases List.mem_cons.mp h1 with rfl | h1
        · exact absurd hc h2
        · exact ⟨h1, h2⟩
    · rw [show firstSeenAux seen (c :: t) = c :: firstSeenAux (c :: seen) t from by
        simp [firstSeenAux, hc]]
      simp only [List.mem_cons, ih]
      constructor
      · rintro (rfl | ⟨h1, h2⟩)
        · exact ⟨Or.inl rfl, hc⟩
        · exact ⟨Or.inr h1, fun hx => h2 (Or.inr hx)⟩
      · rintro ⟨rfl | h1, h2⟩
        · exact Or.inl rfl
        · by_cases hxc : x = c
          · exact Or.inl hxc
          · exact Or.inr ⟨h1, fun hx => hx.elim hxc h2⟩

/-- An element is listed by `firstSeen` exactly when it occurs. -/
theorem mem_firstSeen {α : Type} [DecidableEq α] (l : List α) (x : α) :
    x ∈ firstSeen l ↔ x ∈ l := by
  rw [firstSeen, mem_firstSeenAux]
  simp

/-! ## Characterization of `first_signal` -/

/-- One step of pass 1 is decided by `signalLine`. -/
theorem firstSignalAux1_cons (i : Nat) (l : String) (t : List String) :
    firstSignalAux1 i (l :: t) =
      if signalLine l = true then some (strip l, (i : Int)) else firstSignalAux1 (i + 1) t := by
  by_cases h1 : strip l == ""
  · have hs : signalLine l = false := by simp [signalLine, h1]
    simp [firstSignalAux1, h1, hs]
  · by_cases h2 : containsStr (strip l) "error-format=json"
    · have hs : signalLine l = false := by simp [signalLine, h1, h2]
      simp [firstSignalAux1, h1, h2, hs]
    · cases h3 : classify_text (strip l) with
      | none =>
        have hs : signalLine l = false := by simp [signalLine, h1, h2, h3]
        simp [firstSignalAux1, h1, h2, h3, hs]
      | some r =>
        have hs : signalLine l = true := by simp [signalLine, h1, h2, h3]
        simp [firstSignalAux1, h1, h2, h3, hs]

/-- One step of pass 2 is decided by `errLine`. -/
theorem firstSignalAux2_cons (i : Nat) (l : String) (t : List String) :
    firstSignalAux2 i (l :: t) =
      if errLine l = true then some (strip l, (i : Int)) else firstSignalAux2 (i + 1) t := by
  by_cases h : errorMarker (strip l)
  · simp [firstSignalAux2, errLine, h]
  · simp [firstSignalAux2, errLine, h]

/-- Pass 1 fails when no line is a signal line. -/
theorem firstSignalAux1_none :
    ∀ (lines : List String) (i : Nat), (∀ l ∈ lines, signalLine l = false) →
      firstSignalAux1 i lines = none := by
  intro lines
  induction lines with
  | nil => intro i _; rfl
  | cons l t ih =>
    intro i h
    have hl : signalLine l = false := h l (List.mem_cons_self l t)
    rw [firstSignalAux1_cons, if_neg (by simp [hl])]
    exact ih (i + 1) (fun x hx => h x (List.mem_cons_of_mem l hx))

/-- Pass 2 fails when no line is an error-marker line. -/
theorem firstSignalAux2_none :
    ∀ (lines : List String) (i : Nat), (∀ l ∈ lines, errLine l = false) →
      firstSignalAux2 i lines = none := by
  intro lines
  induction lines with
  | nil => intro i _; rfl
  | cons l t ih =>
    intro i h
    have hl : errLine l = false := h l (List.mem_cons_self l t)
    rw [firstSignalAux2_cons, if_neg (by simp [hl])]
    exact ih (i + 1) (fun x hx => h x (List.mem_cons_of_mem l hx))

/-- Pass 1 returns the first signal line, offset by the start counter. -/
theorem firstSignalAux1_first :
    ∀ (lines : List String) (start i : Nat) (h : i < lines.length),
      signalLine (lines.get ⟨i, h⟩) = true →
      (∀ j (hj : j < i), signalLine (lines.get ⟨j, Nat.lt_trans hj h⟩) = false) →
      firstSignalAux1 start lines =
        some (strip (lines.get ⟨i, h⟩), ((start + i : Nat) : Int)) := by
  intro lines
  induction lines with
  | nil => intro start i h; exact absurd h (Nat.not_lt_zero i)
  | cons l t ih =>
    intro start i h hp hmin
    cases i with
    | zero =>
      have hp' : signalLine l = true := hp
      rw [firstSignalAux1_cons, if_pos hp']
      simp
    | succ n =>
      have hl : signalLine l = false := hmin 0 (Nat.succ_pos n)
      rw [firstSignalAux1_cons, if_neg (by simp [hl])]
      have hrec := ih (start + 1) n (Nat.lt_of_succ_lt_succ h) hp
        (fun j hj => hmin (j + 1) (Nat.succ_lt_succ hj))
      rw [hrec, show start + 1 + n = start + (n + 1) from by omega]
      rfl

/-- Pass 2 returns the first error-marker line, offset by the start
counter. -/
theorem firstSignalAux2_first :
    ∀ (lines : List String) (start i : Nat) (h : i < lines.length),
      errLine (lines.get ⟨i, h⟩) = true →
      (∀ j (hj : j < i), errLine (lines.get ⟨j, Nat.lt_trans hj h⟩) = false) →
      firstSignalAux2 start lines =
        some (strip (lines.get ⟨i, h⟩), ((start + i : Nat) : Int)) := by
  intro lines
  induction lines with
  | nil => intro start i h; exact absurd h (Nat.not_lt_zero i)
  | cons l t ih =>
    intro start i h hp hmin
    cases i with
    | zero =>
      have hp' : errLine l = true := hp
      rw [firstSignalAux2_cons, if_pos hp']
      simp
    | succ n =>
      have hl : errLine l = false := hmin 0 (Nat.succ_pos n)
      rw [firstSignalAux2_cons, if_neg (by simp [hl])]
      have hrec := ih (start + 1) n (Nat.lt_of_succ_lt_succ h) hp
        (fun j hj => hmin (j + 1) (Nat.succ_lt_succ hj))
      rw [hrec, show start + 1 + n = start + (n + 1) from by omega]
      rfl

/-- `first_signal` on the first signal line. -/
theorem first_signal_pass1 (lines : List String) (i : Nat) (h : i < lines.length)
    (hp : signalLine (lines.get ⟨i, h⟩) = true)
    (hmin : ∀ j (hj : j < i), signalLine (lines.get ⟨j, Nat.lt_trans hj h⟩) = false) :
    first_signal lines = (strip (lines.get ⟨i, h⟩), (i : Int)) := by
  unfold first_signal
  rw [firstSignalAux1_first lines 0 i h hp hmin]
  norm_num

/-- `first_signal` falls back to the first error-marker line. -/
theorem first_signal_pass2 (lines : List String)
    (hnone : ∀ l ∈ lines, signalLine l = false)
    (i : Nat) (h : i < lines.length) (hp : errLine (lines.get ⟨i, h⟩) = true)
    (hmin : ∀ j (hj : j < i), errLine (lines.get ⟨j, Nat.lt_trans hj h⟩) = false) :
    first_signal lines = (strip (lines.get ⟨i, h⟩), (i : Int)) := by
  unfold first_signal
  rw [firstSignalAux1_none lines 0 hnone, firstSignalAux2_first lines 0 i h hp hmin]
  norm_num

/-- `first_signal` gives the sentinel when neither pass accepts a line. -/
theorem first_signal_none (lines : List String)
    (h1 : ∀ l ∈ lines, signalLine l = false)
    (h2 : ∀ l ∈ lines, errLine l = false) :
    first_signal lines = ("", -1) := by
  unfold first_signal
  rw [firstSignalAux1_none lines 0 h1, firstSignalAux2_none lines 0 h2]

/-- A signal line strips to a non-empty string. -/
theorem signalLine_ne_empty {l : String} (h : signalLine l = true) :
    (strip l == "") = false := by
  rw [signalLine] at h
  simp only [Bool.and_eq_true, Bool.not_eq_true'] at h
  exact h.1.1

/-- An error-marker line strips to a non-empty string. -/
theorem errLine_ne_empty {l : String} (h : errLine l = true) :
    (strip l == "") = false := by
  cases he : strip l == "" with
  | false => rfl
  | true =>
    have hs : strip l = "" := eq_of_beq he
    rw [errLine, hs] at h
    exact absurd h (by decide)

/-! ## Shape lemmas for the extractors -/

/-- A string containing the tail delimiter is non-empty. -/
theorem splitFirstStr_tail_some_ne {s : String} {pr : String × String}
    (h : splitFirstStr " tail=" s = some pr) : (s == "") = false := by
  cases he : s == "" with
  | false => rfl
  | true =>
    have hs : s = "" := eq_of_beq he
    rw [hs] at h
    have hnone : splitFirstStr " tail=" "" = none := by decide
    rw [hnone] at h
    exact Option.noConfusion h

/-- `read_bad_spec` on an artifact whose reason carries a tail delimiter:
the stripped tail is the stored raw signal and is classified first, the
stored excerpt is the whole reason truncated to 1200 characters. -/
theorem read_bad_spec_tail (f : TextFile) (pre post : String)
    (h : splitFirstStr " tail=" (badSpecReason f.text) = some (pre, post)) :
    ∃ rec, read_bad_spec f = some rec ∧
      rec.raw_signal = strip post ∧
      rec.log_excerpt = takeStr 1200 (badSpecReason f.text) ∧
      rec.canonical_class = canonicalOf
        (match classify_text (strip post) with
          | some r => some r
          | none => classify_text (badSpecReason f.text)) ∧
      rec.source_type = "bad_spec" := by
  have hne : (badSpecReason f.text == "") = false := splitFirstStr_tail_some_ne h
  simp only [read_bad_spec, hne, Bool.false_eq_true, if_false, h]
  exact ⟨_, rfl, rfl, rfl, rfl, rfl⟩

/-- `read_bad_spec` on an artifact whose non-empty reason carries no tail
delimiter: the whole reason is the stored raw signal. -/
theorem read_bad_spec_no_tail (f : TextFile)
    (hne : (badSpecReason f.text == "") = false)
    (h : splitFirstStr " tail=" (badSpecReason f.text) = none) :
    ∃ rec, read_bad_spec f = some rec ∧
      rec.raw_signal = badSpecReason f.text ∧
      rec.log_excerpt = takeStr 1200 (badSpecReason f.text) ∧
      rec.canonical_class = canonicalOf (classify_text (badSpecReason f.text)) ∧
      rec.source_type = "bad_spec" := by
  simp only [read_bad_spec, hne, Bool.false_eq_true, if_false, h]
  refine ⟨_, rfl, rfl, rfl, ?_, rfl⟩
  cases hc : classify_text (badSpecReason f.text) <;> simp [hc]

/-- Every record `read_bad_spec` produces is a bad-spec record. -/
theorem read_bad_spec_source {f : TextFile} {r : FailureRecord}
    (h : read_bad_spec f = some r) : r.source_type = "bad_spec" := by
  simp only [read_bad_spec] at h
  split at h
  · exact Option.noConfusion h
  · rw [← Option.some.inj h]

/-- Every record `read_build_log` produces is a build-log record. -/
theorem read_build_log_source {f : TextFile} {r : FailureRecord}
    (h : read_build_log f = some r) : r.source_type = "build_log" := by
  simp only [read_build_log] at h
  split at h
  · exact Option.noConfusion h
  · split at h
    · exact Option.noConfusion h
    · rw [← Option.some.inj h]

/-- Every record `read_failure_gathering_tsv` produces is a failure-table
record. -/
theorem read_tsv_source {t : TsvFile} {r : FailureRecord}
    (h : r ∈ read_failure_gathering_tsv t) : r.source_type = "adapter_failure_tsv" := by
  simp only [read_failure_gathering_tsv] at h
  rw [List.mem_filterMap] at h
  obtain ⟨row, _, hrow⟩ := h
  split at hrow
  · exact Option.noConfusion hrow
  · rw [← Option.some.inj hrow]

/-! ## Claim C1 -/

/-- C1 (counterexample): `c1CounterText` matches the patterns of rule 5
(`PythonImportOrABIError`) and rule 6 (`MissingHeaderOrIncludePath`), so with
R1 the fifth and R2 the sixth rule the claim demands R1's canonical class,
yet `classify` returns a different class (the text also matches rule 0,
which precedes both). -/
theorem C1_counterexample :
    (RULES.get ⟨5, by decide⟩).pattern c1CounterText = true ∧
    (RULES.get ⟨6, by decide⟩).pattern c1CounterText = true ∧
    (classify_text c1CounterText).map Rule.canonical ≠
      some (RULES.get ⟨5, by decide⟩).canonical := by
  refine ⟨by decide, by decide, by decide⟩

/-- C1 (amended): `classify` returns the first rule in declared table order
whose case-insensitive pattern matches anywhere in the text, and the sentinel
(`none`, recorded as Unknown) exactly when no rule matches; for any two rules
R1 before R2 and any text matching both patterns, `classify` returns the
canonical class of a rule at R1's position or earlier, and exactly R1's
canonical class when no rule before R1 matches the text. -/
theorem C1_classify_first_match :
    ∀ text : String,
      (classify_text text = none ↔ ∀ r ∈ RULES, r.pattern text = false) ∧
      (∀ i j : Fin RULES.length, i < j →
        (RULES.get i).pattern text = true →
        (RULES.get j).pattern text = true →
        (∃ k : Fin RULES.length, k ≤ i ∧ classify_text text = some (RULES.get k)) ∧
        ((∀ k : Fin RULES.length, k < i → (RULES.get k).pattern text = false) →
          (classify_text text).map Rule.canonical = some (RULES.get i).canonical)) := by
  intro text
  constructor
  · rw [classify_text, List.find?_eq_none]
    constructor
    · intro h r hr
      simpa using h r hr
    · intro h r hr
      simp [h r hr]
  · intro i j _ hpi _
    constructor
    · obtain ⟨k, hk, hki, hfind⟩ :=
        find?_le_of_match (fun r => r.pattern text) RULES i.val i.isLt hpi
      exact ⟨⟨k, hk⟩, hki, hfind⟩
    · intro hmin
      have hfirst := find?_of_first (fun r => r.pattern text) RULES i.val i.isLt hpi
        (fun k hk => hmin ⟨k, Nat.lt_trans hk i.isLt⟩ hk)
      unfold classify_text
      rw [hfirst]
      rfl

/-- C1 (witness): `c1PairText` matches rules 5 and 6 and nothing earlier, and
classifies to rule 5's canonical class. -/
theorem C1_witness :
    (classify_text c1PairText).map Rule.canonical = some "PythonImportOrABIError" :=
  ((C1_classify_first_match c1PairText).2 ⟨5, by decide⟩ ⟨6, by decide⟩
    (by decide) (by decide) (by decide)).2 (by decide)

/-! ## Claim C2 -/

/-- C2: on a build-log artifact, no record is returned when no line matches
the coarse failure pattern set; otherwise, when line `i` is the first whose
stripped text is non-empty, free of the `error-format=json` noise token and
matched by some rule, the record's raw signal is that stripped line and its
canonical class is the classifier's verdict on it; when no such line exists,
the first line matching the generic `\berror:\b` marker becomes the raw
signal and classification is re-attempted on that text; when that also finds
no line, no record is returned. -/
theorem C2_build_log_signal (f : TextFile) :
    (log_failed (splitlines f.text) = false → read_build_log f = none) ∧
    (log_failed (splitlines f.text) = true →
      ∀ i : Fin (splitlines f.text).length,
        signalLine ((splitlines f.text).get i) = true →
        (∀ j : Fin (splitlines f.text).length, j.val < i.val →
          signalLine ((splitlines f.text).get j) = false) →
        ∃ rec, read_build_log f = some rec ∧
          rec.raw_signal = strip ((splitlines f.text).get i) ∧
          rec.canonical_class =
            canonicalOf (classify_text (strip ((splitlines f.text).get i)))) ∧
    (log_failed (splitlines f.text) = true →
      (∀ l ∈ splitlines f.text, signalLine l = false) →
      ∀ i : Fin (splitlines f.text).length,
        errLine ((splitlines f.text).get i) = true →
        (∀ j : Fin (splitlines f.text).length, j.val < i.val →
          errLine ((splitlines f.text).get j) = false) →
        ∃ rec, read_build_log f = some rec ∧
          rec.raw_signal = strip ((splitlines f.text).get i) ∧
          rec.canonical_class =
            canonicalOf (classify_text (strip ((splitlines f.text).get i)))) ∧
    ((∀ l ∈ splitlines f.text, signalLine l = false) →
      (∀ l ∈ splitlines f.text, errLine l = false) →
      read_build_log f = none) := by
  refine ⟨?_, ?_, ?_, ?_⟩
  · intro hfail
    simp [read_build_log, hfail]
  · intro hfail i hp hmin
    have hfs := first_signal_pass1 (splitlines f.text) i.val i.isLt hp
      (fun j hj => hmin ⟨j, Nat.lt_trans hj i.isLt⟩ hj)
    have hne := signalLine_ne_empty hp
    rw [Fin.eta] at hfs
    have heq : read_build_log f = some
        { source_type := "build_log"
          artifact_path := filePath f
          timestamp := f.mtime
          package := package_from_log f.name
          stage := match classify_text (strip ((splitlines f.text).get i)) with
            | some r => r.stage
            | none => "Build"
          stage_failure := match classify_text (strip ((splitlines f.text).get i)) with
            | some r => r.stage_failure
            | none => "BuildFailure"
          canonical_class := canonicalOf (classify_text (strip ((splitlines f.text).get i)))
          raw_signal := strip ((splitlines f.text).get i)
          log_excerpt := excerpt (splitlines f.text) (i.val : Int)
          execution_mode := "Unknown"
          has_patch_activity := (splitlines f.text).any fun ln => containsStr ln "patching file" } := by
      simp only [read_build_log, hfail, Bool.not_true, Bool.false_eq_true, if_false, hfs, hne]
    exact ⟨_, heq, rfl, rfl⟩
  · intro hfail hline i hp hmin
    have hfs := first_signal_pass2 (splitlines f.text) hline i.val i.isLt hp
      (fun j hj => hmin ⟨j, Nat.lt_trans hj i.isLt⟩ hj)
    have hne := errLine_ne_empty hp
    rw [Fin.eta] at hfs
    have heq : read_build_log f = some
        { source_type := "build_log"
          artifact_path := filePath f
          timestamp := f.mtime
          package := package_from_log f.name
          stage := match classify_text (strip ((splitlines f.text).get i)) with
            | some r => r.stage
            | none => "Build"
          stage_failure := match classify_text (strip ((splitlines f.text).get i)) with
            | some r => r.stage_failure
            | none => "BuildFailure"
          canonical_class := canonicalOf (classify_text (strip ((splitlines f.text).get i)))
          raw_signal := strip ((splitlines f.text).get i)
          log_excerpt := excerpt (splitlines f.text) (i.val : Int)
          execution_mode := "Unknown"
          has_patch_activity := (splitlines f.text).any fun ln => containsStr ln "patching file" } := by
      simp only [read_build_log, hfail, Bool.not_true, Bool.false_eq_true, if_false, hfs, hne]
    exact ⟨_, heq, rfl, rfl⟩
  · intro h1 h2
    have hfs := first_signal_none (splitlines f.text) h1 h2
    by_cases hfail : log_failed (splitlines f.text)
    · simp [read_build_log, hfail, hfs]
    · simp [read_build_log, hfail]

/-- C2 (witness): the demo log classifies off its second line. -/
theorem C2_witness :
    (read_build_log c2File).map FailureRecord.raw_signal =
      some "fatal error: zlib.h: No such file or directory" ∧
    (read_build_log c2File).map FailureRecord.canonical_class =
      some "MissingHeaderOrIncludePath" := by
  obtain ⟨rec, h1, h2, h3⟩ := (C2_build_log_signal c2File).2.1 (by decide)
    ⟨1, by decide⟩ (by decide) (by decide)
  constructor
  · rw [h1]
    show some rec.raw_signal = _
    rw [h2]
    rfl
  · rw [h1]
    show some rec.canonical_class = _
    rw [h3]
    rfl

/-! ## Claim C3 -/

/-- C3 (counterexample): already on the spec's own example the tail substring
is not what is stored truncated to 1200 characters: the stored excerpt is the
whole reason (its pre-delimiter text included) truncated to 1200 characters,
not the tail substring truncated to 1200 characters. -/
theorem C3_counterexample :
    ∃ rec, read_bad_spec c3Numpy = some rec ∧
      rec.log_excerpt ≠
        takeStr 1200 (strip ("No module named " ++ squote ++ "numpy" ++ squote)) := by
  obtain ⟨rec, heq, _, hexc, _, _⟩ := read_bad_spec_tail c3Numpy
    "unresolved dependency" ("No module named " ++ squote ++ "numpy" ++ squote) (by rfl)
  refine ⟨rec, heq, ?_⟩
  rw [hexc]
  intro hcontra
  have hb : (takeStr 1200 (badSpecReason c3Numpy.text) ==
      takeStr 1200 (strip ("No module named " ++ squote ++ "numpy" ++ squote))) = true :=
    beq_iff_eq.mpr hcontra
  rw [show (takeStr 1200 (badSpecReason c3Numpy.text) ==
      takeStr 1200 (strip ("No module named " ++ squote ++ "numpy" ++ squote))) = false
    from by decide] at hb
  exact Bool.noConfusion hb

/-- C3 (amended): for a bad-spec artifact whose reason contains the tail
delimiter, the stripped substring after the delimiter is the discriminating
signal: it is classified first and stored untruncated as the raw signal,
while the stored excerpt is the entire reason truncated to 1200 characters;
otherwise the whole reason is used.  The spec's example (an
unresolved-dependency reason with a `No module named` tail) classifies via
the tail segment to the Python-import canonical class. -/
theorem C3_bad_spec_tail :
    (∀ (f : TextFile) (pre post : String),
      splitFirstStr " tail=" (badSpecReason f.text) = some (pre, post) →
      ∃ rec, read_bad_spec f = some rec ∧
        rec.raw_signal = strip post ∧
        rec.log_excerpt = takeStr 1200 (badSpecReason f.text) ∧
        ((classify_text (strip post)).isSome = true →
          rec.canonical_class = canonicalOf (classify_text (strip post)))) ∧
    (∀ f : TextFile, (badSpecReason f.text == "") = false →
      splitFirstStr " tail=" (badSpecReason f.text) = none →
      ∃ rec, read_bad_spec f = some rec ∧
        rec.raw_signal = badSpecReason f.text ∧
        rec.canonical_class = canonicalOf (classify_text (badSpecReason f.text))) ∧
    (∃ rec, read_bad_spec c3Numpy = some rec ∧
      rec.canonical_class = "PythonImportOrABIError" ∧
      rec.raw_signal = "No module named " ++ squote ++ "numpy" ++ squote) := by
  refine ⟨?_, ?_, ?_⟩
  · intro f pre post hsplit
    obtain ⟨rec, heq, hraw, hexc, hcanon, _⟩ := read_bad_spec_tail f pre post hsplit
    refine ⟨rec, heq, hraw, hexc, ?_⟩
    intro hsome
    obtain ⟨r, hr⟩ := Option.isSome_iff_exists.mp hsome
    rw [hcanon, hr]
  · intro f hne hsplit
    obtain ⟨rec, heq, hraw, _, hcanon, _⟩ := read_bad_spec_no_tail f hne hsplit
    exact ⟨rec, heq, hraw, hcanon⟩
  · obtain ⟨rec, heq, hraw, _, hcanon, _⟩ := read_bad_spec_tail c3Numpy
      "unresolved dependency" ("No module named " ++ squote ++ "numpy" ++ squote) (by rfl)
    refine ⟨rec, heq, ?_, ?_⟩
    · rw [hcanon]; rfl
    · rw [hraw]; rfl

/-- C3 (witness): the amended statement applied to the spec's numpy
example. -/
theorem C3_witness :
    (read_bad_spec c3Numpy).map FailureRecord.raw_signal =
      some (strip ("No module named " ++ squote ++ "numpy" ++ squote)) ∧
    (read_bad_spec c3Numpy).map FailureRecord.log_excerpt =
      some (takeStr 1200 (badSpecReason c3Numpy.text)) ∧
    (read_bad_spec c3Numpy).map FailureRecord.canonical_class =
      some (canonicalOf
        (classify_text (strip ("No module named " ++ squote ++ "numpy" ++ squote)))) := by
  obtain ⟨rec, heq, hraw, hexc, hcanon⟩ := C3_bad_spec_tail.1 c3Numpy "unresolved dependency"
    ("No module named " ++ squote ++ "numpy" ++ squote) (by rfl)
  have hc := hcanon (by rfl)
  refine ⟨?_, ?_, ?_⟩ <;> rw [heq]
  · show some rec.raw_signal = _
    rw [hraw]
  · show some rec.log_excerpt = _
    rw [hexc]
  · show some rec.canonical_class = _
    rw [hc]

/-! ## Claim C10 -/

/-- C10: for a bad-spec artifact whose reason contains the tail delimiter but
whose stripped tail matches no rule, classification falls back to the entire
reason line, so the canonical class can be determined by text preceding the
delimiter; witnessed by a reason whose pre-delimiter text matches the
dependency-cascade rule while its tail matches nothing. -/
theorem C10_tail_fallback :
    (∀ (f : TextFile) (pre post : String),
      splitFirstStr " tail=" (badSpecReason f.text) = some (pre, post) →
      (classify_text (strip post)).isSome = false →
      ∃ rec, read_bad_spec f = some rec ∧
        rec.raw_signal = strip post ∧
        rec.canonical_class = canonicalOf (classify_text (badSpecReason f.text))) ∧
    (∃ rec, read_bad_spec c10File = some rec ∧
      rec.canonical_class = "DependencyBlockedCascade") := by
  constructor
  · intro f pre post hsplit hnone
    obtain ⟨rec, heq, hraw, _, hcanon, _⟩ := read_bad_spec_tail f pre post hsplit
    refine ⟨rec, heq, hraw, ?_⟩
    cases ho : classify_text (strip post) with
    | none => rw [hcanon, ho]
    | some r =>
      rw [ho] at hnone
      exact absurd hnone (by simp)
  · obtain ⟨rec, heq, _, _, hcanon, _⟩ := read_bad_spec_tail c10File
      "blocked by failed dependencies" "zzz" (by rfl)
    refine ⟨rec, heq, ?_⟩
    rw [hcanon]
    rfl

/-- C10 (witness): the fallback applied to the concrete artifact. -/
theorem C10_witness :
    (read_bad_spec c10File).map FailureRecord.canonical_class =
      some (canonicalOf (classify_text (badSpecReason c10File.text))) := by
  obtain ⟨rec, heq, _, hcanon⟩ :=
    C10_tail_fallback.1 c10File "blocked by failed dependencies" "zzz" (by rfl) (by rfl)
  rw [heq]
  show some rec.canonical_class = _
  rw [hcanon]

/-! ## Claim C4 -/

/-- C4: the collected record list is the bad-spec group, then the build-log
group, then the failure-table group; each group comes from its discovered
artifact list, whose entries are in sorted-name order; any build log whose
name contains the retry-attempt marker is excluded from discovery, so of
`foo.log` and `foo.attempt1.log` only `foo.log` is discovered and recorded. -/
theorem C4_record_order (c : Corpus) :
    runRecords c =
      (discover_bad_specs c).filterMap read_bad_spec ++
      (discover_build_logs c).filterMap read_build_log ++
      (discover_failure_tsvs c).flatMap read_failure_gathering_tsv ∧
    (∀ r ∈ (discover_bad_specs c).filterMap read_bad_spec, r.source_type = "bad_spec") ∧
    (∀ r ∈ (discover_build_logs c).filterMap read_build_log, r.source_type = "build_log") ∧
    (∀ r ∈ (discover_failure_tsvs c).flatMap read_failure_gathering_tsv,
      r.source_type = "adapter_failure_tsv") ∧
    List.Chain' (fun a b => fileLe a b = true) (discover_bad_specs c) ∧
    List.Chain' (fun a b => fileLe a b = true) (discover_build_logs c) ∧
    List.Chain' (fun a b => tsvLe a b = true) (discover_failure_tsvs c) ∧
    (∀ f ∈ discover_build_logs c, containsStr f.name ".attempt" = false) ∧
    (discover_build_logs c4Corpus).map TextFile.name = ["foo.log"] ∧
    (runRecords c4Corpus).map FailureRecord.package = ["foo"] := by
  refine ⟨?_, ?_, ?_, ?_, ?_, ?_, ?_, ?_, by decide, by decide⟩
  · simp only [runRecords]
    rw [foldl_appendIfSome read_bad_spec, foldl_appendIfSome read_build_log,
      foldl_appendFlat read_failure_gathering_tsv]
    simp [List.append_assoc]
  · intro r hr
    obtain ⟨a, _, ha⟩ := List.mem_filterMap.mp hr
    exact read_bad_spec_source ha
  · intro r hr
    obtain ⟨a, _, ha⟩ := List.mem_filterMap.mp hr
    exact read_build_log_source ha
  · intro r hr
    obtain ⟨t, _, ht⟩ := List.mem_flatMap.mp hr
    exact read_tsv_source ht
  · exact chain'_sortLe fileLe fileLe_total _
  · exact chain'_sortLe fileLe fileLe_total _
  · exact chain'_sortLe tsvLe tsvLe_total _
  · intro f hf
    have hmem := (mem_sortLe fileLe _ f).mp hf
    have hfil := (List.mem_filter.mp hmem).2
    simp only [Bool.and_eq_true, Bool.not_eq_true'] at hfil
    exact hfil.2

/-- C4 (witness): the group decomposition at the two-log corpus. -/
theorem C4_witness :
    runRecords c4Corpus =
      (discover_bad_specs c4Corpus).filterMap read_bad_spec ++
      (discover_build_logs c4Corpus).filterMap read_build_log ++
      (discover_failure_tsvs c4Corpus).flatMap read_failure_gathering_tsv :=
  (C4_record_order c4Corpus).1

/-! ## Claim C5 -/

/-- C5: for every record set, the classified and unknown counts sum to the
total, the coverage percentage is `(total − unknown) / total × 100`, and the
taxonomy-insufficiency flag is set exactly when the unknown share exceeds
20 %. -/
theorem C5_coverage_identity (records : List FailureRecord) :
    classified_count records + unknown_count records = records.length ∧
    coverage records =
      ((records.length : ℚ) - (unknown_count records : ℚ)) / (records.length : ℚ) * 100 ∧
    (taxonomy_insufficient records = true ↔
      20 < 100 * (unknown_count records : ℚ) / (records.length : ℚ)) := by
  have hle : unknown_count records ≤ records.length := List.countP_le_length _
  refine ⟨?_, ?_, ?_⟩
  · show records.length - unknown_count records + unknown_count records = records.length
    omega
  · show pct (classified_count records) records.length = _
    simp only [pct, classified_count]
    by_cases h : records.length = 0
    · have hu : unknown_count records = 0 := by omega
      rw [if_pos h, h, hu]
      simp
    · rw [if_neg h, Nat.cast_sub hle]
      ring
  · by_cases h : records.length = 0
    · have hu : unknown_count records = 0 := by omega
      simp [taxonomy_insufficient, unknown_pct, pct, h, hu]
    · simp [taxonomy_insufficient, unknown_pct, pct, h]

/-- C5 (witness): the coverage identity at a concrete two-record set. -/
theorem C5_witness :
    classified_count [sampleUnknownRecord, sampleCMakeRecord] +
      unknown_count [sampleUnknownRecord, sampleCMakeRecord] =
      ([sampleUnknownRecord, sampleCMakeRecord] : List FailureRecord).length :=
  (C5_coverage_identity [sampleUnknownRecord, sampleCMakeRecord]).1

/-! ## Claim C6 -/

/-- C6: for every record set, a class is listed in the long tail exactly when
it occurs among the records and its individual share of the total is below
3 %; each long-tail entry carries that class's occurrence count; and the
rule-proliferation indicator is set exactly when the summed share of the
long-tail classes exceeds 40 %. -/
theorem C6_long_tail (records : List FailureRecord) :
    (∀ cls : String,
      (∃ kv ∈ long_tail records, kv.1 = cls) ↔
        ((∃ r ∈ records, r.canonical_class = cls) ∧
          100 * (class_count records cls : ℚ) / (records.length : ℚ) < 3)) ∧
    (∀ kv ∈ long_tail records, kv.2 = class_count records kv.1) ∧
    (rule_proliferation_indicator records = true ↔
      40 < 100 * ((((long_tail records).map (fun kv => kv.2)).sum : ℕ) : ℚ) /
        (records.length : ℚ)) := by
  refine ⟨?_, ?_, ?_⟩
  · intro cls
    constructor
    · rintro ⟨kv, hkv, rfl⟩
      have hmem := List.mem_filter.mp hkv
      obtain ⟨c0, hc0, heq⟩ := List.mem_map.mp hmem.1
      have hcond := hmem.2
      rw [decide_eq_true_eq] at hcond
      have hocc : c0 ∈ records.map (fun r => r.canonical_class) :=
        (mem_firstSeen _ c0).mp hc0
      obtain ⟨r, hr, hrc⟩ := List.mem_map.mp hocc
      have hlen : records.length ≠ 0 := by
        intro h0
        rw [List.length_eq_zero] at h0
        rw [h0] at hr
        exact absurd hr (List.not_mem_nil r)
      constructor
      · exact ⟨r, hr, by rw [← heq]; exact hrc⟩
      · rw [← heq]
        rw [← heq, pct, if_neg hlen] at hcond
        exact hcond
    · rintro ⟨⟨r, hr, hrc⟩, hshare⟩
      have hlen : records.length ≠ 0 := by
        intro h0
        rw [List.length_eq_zero] at h0
        rw [h0] at hr
        exact absurd hr (List.not_mem_nil r)
      have hmemf : cls ∈ firstSeen (records.map (fun r => r.canonical_class)) :=
        (mem_firstSeen _ _).mpr (List.mem_map.mpr ⟨r, hr, hrc⟩)
      refine ⟨(cls, class_count records cls), List.mem_filter.mpr ⟨?_, ?_⟩, rfl⟩
      · exact List.mem_map.mpr ⟨cls, hmemf, rfl⟩
      · rw [decide_eq_true_eq, pct, if_neg hlen]
        exact hshare
  · intro kv hkv
    obtain ⟨c0, _, heq⟩ := List.mem_map.mp (List.mem_filter.mp hkv).1
    rw [← heq]
  · simp only [rule_proliferation_indicator, long_tail_share, pct, decide_eq_true_eq,
      gt_iff_lt]
    by_cases h : records.length = 0
    · rw [if_pos h, h]
      simp
    · rw [if_neg h]

/-- C6 (witness): the proliferation characterization at a concrete
one-record set. -/
theorem C6_witness :
    rule_proliferation_indicator [sampleUnknownRecord] = true ↔
      40 < 100 * ((((long_tail [sampleUnknownRecord]).map (fun kv => kv.2)).sum : ℕ) : ℚ) /
        (([sampleUnknownRecord] : List FailureRecord).length : ℚ) :=
  (C6_long_tail [sampleUnknownRecord]).2.2

/-! ## Claim C7 -/

/-- C7: the patch-drift findings are exactly the projections of the records
whose source is a build log, whose patch-activity flag is set and whose
canonical class is not the patch-application-failure class; on the concrete
corpus, the log with patch markers that classifies as a CMake failure
appears in the findings. -/
theorem C7_patch_drift (records : List FailureRecord) :
    patch_drift records =
      ((records.filter (fun r => r.source_type == "build_log" && r.has_patch_activity &&
        !(r.canonical_class == "PatchApplicationFailure"))).map
        (fun r => ({ package := r.package, canonical_class := r.canonical_class,
                     artifact_path := r.artifact_path } : DriftItem))) ∧
    patch_drift (runRecords c7Corpus) =
      [{ package := "patchy", canonical_class := "CMakeConfigurationFailure",
         artifact_path := "reports/build_logs/patchy.log" }] := by
  constructor
  · have h := foldl_appendIf
      (fun r : FailureRecord => r.source_type == "build_log" && r.has_patch_activity &&
        !(r.canonical_class == "PatchApplicationFailure"))
      (fun r : FailureRecord => ({ package := r.package,
                                   canonical_class := r.canonical_class,
                                   artifact_path := r.artifact_path } : DriftItem))
      records []
    simpa [patch_drift] using h
  · decide

/-- C7 (witness): the filter characterization at the concrete corpus. -/
theorem C7_witness :
    patch_drift (runRecords c7Corpus) =
      (((runRecords c7Corpus).filter (fun r => r.source_type == "build_log" &&
        r.has_patch_activity && !(r.canonical_class == "PatchApplicationFailure"))).map
        (fun r => ({ package := r.package, canonical_class := r.canonical_class,
                     artifact_path := r.artifact_path } : DriftItem))) :=
  (C7_patch_drift (runRecords c7Corpus)).1

/-! ## Claim C8 -/

/-- C8: two runs over the same corpus and output directory produce the same
record rows, cluster rows, candidate rows and report lines, and summaries
differing only in the embedded generation timestamp: every output is a
deterministic function of the input artifact set. -/
theorem C8_deterministic_outputs (c : Corpus) (out_dir t1 t2 : String) :
    (runOutputs c out_dir t1).records_rows = (runOutputs c out_dir t2).records_rows ∧
    (runOutputs c out_dir t1).clusters_rows = (runOutputs c out_dir t2).clusters_rows ∧
    (runOutputs c out_dir t1).candidates_rows = (runOutputs c out_dir t2).candidates_rows ∧
    (runOutputs c out_dir t1).report_lines = (runOutputs c out_dir t2).report_lines ∧
    (runOutputs c out_dir t1).summary =
      { (runOutputs c out_dir t2).summary with generated_at_utc := t1 } ∧
    (runOutputs c out_dir t1).summary.generated_at_utc = t1 :=
  ⟨rfl, rfl, rfl, rfl, rfl, rfl⟩

/-- C8 (witness): determinism of the record rows at a concrete corpus and
two distinct timestamps. -/
theorem C8_witness :
    (runOutputs c7Corpus "docs/historical_log_mining" "2026-01-01T00:00:00+00:00").records_rows =
      (runOutputs c7Corpus "docs/historical_log_mining" "2026-02-02T00:00:00+00:00").records_rows :=
  (C8_deterministic_outputs c7Corpus "docs/historical_log_mining"
    "2026-01-01T00:00:00+00:00" "2026-02-02T00:00:00+00:00").1

/-! ## Claim C9 -/

/-- The empty record set has zero coverage. -/
theorem coverage_nil : coverage [] = 0 := by
  simp [coverage, pct]

/-- The empty record set has zero long-tail share. -/
theorem long_tail_share_nil : long_tail_share [] = 0 := by
  simp [long_tail_share, pct]

/-- The empty record set does not trip the taxonomy-insufficiency flag. -/
theorem taxonomy_insufficient_nil : taxonomy_insufficient [] = false := by
  rw [taxonomy_insufficient,
    show unknown_pct ([] : List FailureRecord) = 0 from by simp [unknown_pct, pct]]
  exact decide_eq_false (by norm_num)

/-- The empty record set does not trip the proliferation indicator. -/
theorem rule_proliferation_nil : rule_proliferation_indicator [] = false := by
  rw [rule_proliferation_indicator, long_tail_share_nil]
  exact decide_eq_false (by norm_num)

/-- Rounding zero gives zero. -/
theorem round2_zero : round2 0 = 0 := by
  norm_num [round2, roundHalfEven]

/-- C9: every percentage computation is guarded against a zero denominator
and returns 0; a run that collects no records completes with zero-valued
aggregates and both flags unset, and on the corpus with no artifacts every
output of the run is empty or zero-valued. -/
theorem C9_zero_artifacts :
    (∀ n : Nat, pct n 0 = 0) ∧
    (∀ c : Corpus, runRecords c = [] →
      taxonomy_insufficient (runRecords c) = false ∧
      rule_proliferation_indicator (runRecords c) = false ∧
      coverage (runRecords c) = 0 ∧
      long_tail_share (runRecords c) = 0) ∧
    (∀ out now : String,
      (runOutputs emptyCorpus out now).records_rows = [] ∧
      (runOutputs emptyCorpus out now).clusters_rows = [] ∧
      (runOutputs emptyCorpus out now).candidates_rows = [] ∧
      (runOutputs emptyCorpus out now).summary.classifier_validation.total_historical_failures
        = 0 ∧
      (runOutputs emptyCorpus out now).summary.classifier_validation.classified_count = 0 ∧
      (runOutputs emptyCorpus out now).summary.classifier_validation.classified_percent = 0 ∧
      (runOutputs emptyCorpus out now).summary.classifier_validation.unknown_percent = 0 ∧
      (runOutputs emptyCorpus out now).summary.classifier_validation.taxonomy_insufficiency_flag
        = false ∧
      (runOutputs emptyCorpus out now).summary.rule_proliferation_indicator = false ∧
      (runOutputs emptyCorpus out now).summary.long_tail_share_percent = 0) := by
  have hrec : runRecords emptyCorpus = [] := rfl
  refine ⟨?_, ?_, ?_⟩
  · intro n
    simp [pct]
  · intro c h
    rw [h]
    exact ⟨taxonomy_insufficient_nil, rule_proliferation_nil, coverage_nil, long_tail_share_nil⟩
  · intro out now
    refine ⟨rfl, rfl, rfl, rfl, rfl, ?_, ?_, ?_, ?_, ?_⟩
    · show round2 (coverage (runRecords emptyCorpus)) = 0
      rw [hrec, coverage_nil, round2_zero]
    · show round2 (unknown_pct (runRecords emptyCorpus)) = 0
      rw [hrec, show unknown_pct ([] : List FailureRecord) = 0 from by simp [unknown_pct, pct],
        round2_zero]
    · show taxonomy_insufficient (runRecords emptyCorpus) = false
      rw [hrec, taxonomy_insufficient_nil]
    · show rule_proliferation_indicator (runRecords emptyCorpus) = false
      rw [hrec, rule_proliferation_nil]
    · show round2 (long_tail_share (runRecords emptyCorpus)) = 0
      rw [hrec, long_tail_share_nil, round2_zero]

/-- C9 (witness): the zero-record conjunct at the artifact-free corpus. -/
theorem C9_witness :
    taxonomy_insufficient (runRecords emptyCorpus) = false ∧
    rule_proliferation_indicator (runRecords emptyCorpus) = false ∧
    coverage (runRecords emptyCorpus) = 0 ∧
    long_tail_share (runRecords emptyCorpus) = 0 :=
  C9_zero_artifacts.2.1 emptyCorpus rfl
